import Mathlib

/-!
# Verification of the PyWXSB XML Schema component model (structures.py)

A shallow embedding of `src/PyWXSB/XMLSchema/structures.py`: the component
data model (simple and complex type definitions, particles, model groups,
wildcards), the built-in bootstrap (ur-type singletons, primitive and
derived simple types), the per-component resolution state machine, and the
schema registry with its deferred-resolution fixpoint driver.

Python objects live in an arena (`State.defs`, `State.psts`) and are
referred to by numeric ids, so that object identity (needed for the
built-in merge protocol and the self-referential ur-type) is observable.
Mutation is explicit state passing through the monad `M`; a Python
exception is an `Err` carried together with the state at the point of the
raise (Python exceptions do not roll back prior mutations).

Leading underscores of Python method names are dropped (`_resolve` becomes
`resolve`, `_addTypeDefinition` becomes `addTypeDefinition`, and so on);
name-mangled double-underscore attributes keep their plain names.
-/

/-- The exception classes raised by the source (from `PyWXSB.exceptions_`),
plus `assertionError` for failed `assert` statements, `attributeError` and
`typeError` for attribute accesses and operations that would fail in the
Python runtime, and `fuelExhausted`, a modelling artifact standing for an
unbounded source loop that has not terminated within the given fuel. -/
inductive Err where
  | logicError (msg : String)
  | schemaValidationError (msg : String)
  | incompleteImplementationError (msg : String)
  | incompleteImplementationException (msg : String)
  | badTypeValueError (msg : String)
  | assertionError (msg : String)
  | attributeError (msg : String)
  | typeError (msg : String)
  | fuelExhausted
deriving DecidableEq, Repr

/-- A namespace, modelled from the spec: the namespace capability is an
external collaborator ("qualified-name formatting ... treated as a
namespace capability"); only its identity and qualified-name formatting
are consumed by the core. -/
abbrev XNamespace := String

/-- Modelled from the spec: `Namespace.qualifiedName`, the external
qualified-name formatting used by `name()`. -/
def XNamespace.qualifiedName (ns : XNamespace) (local_name : String) : String :=
  ns ++ ":" ++ local_name

/-- Modelled from the spec: `wxs.xsQualifiedName`, the external capability
that qualifies a local XMLSchema tag name ("qualify a local tag name
against the schema conventions").  The core only ever compares its result
against node names, so it is modelled as the identity. -/
def xsQualifiedName (tag : String) : String := tag

/-- A DOM node: either an element with a tag name, attributes and children,
or a text node.  This is the shape of `xml.dom` nodes that the source
consumes (`nodeName`, `childNodes`, `hasAttribute`, `getAttribute`,
`nodeType`). -/
inductive DomNode where
  | element (tag : String) (attrs : List (String × String)) (children : List DomNode)
  | text (data : String)

/-- Embeds `node.nodeName`; text nodes report the DOM name `#text`. -/
def DomNode.nodeName : DomNode → String
  | .element tag _ _ => tag
  | .text _ => "#text"

/-- Embeds `Node.ELEMENT_NODE == cn.nodeType`. -/
def DomNode.isElement : DomNode → Bool
  | .element _ _ _ => true
  | .text _ => false

/-- Embeds `node.childNodes`. -/
def DomNode.childNodes : DomNode → List DomNode
  | .element _ _ children => children
  | .text _ => []

/-- Attribute lookup helper for `hasAttribute` and `getAttribute`. -/
def DomNode.findAttr : DomNode → String → Option String
  | .element _ attrs _, a => attrs.lookup a
  | .text _, _ => none

/-- Embeds `node.hasAttribute(a)`. -/
def DomNode.hasAttribute (n : DomNode) (a : String) : Bool :=
  (n.findAttr a).isSome

/-- Embeds `node.getAttribute(a)`; the DOM returns the empty string for an absent
attribute. -/
def DomNode.getAttribute (n : DomNode) (a : String) : String :=
  (n.findAttr a).getD ""

/-! ## Constants from the source classes -/

/-- Embeds `ComplexTypeDefinition.DM_empty`. -/
def DM_empty : Nat := 0
/-- Embeds `ComplexTypeDefinition.DM_extension`. -/
def DM_extension : Nat := 0x01
/-- Embeds `ComplexTypeDefinition.DM_restriction`. -/
def DM_restriction : Nat := 0x02

/-- Embeds `ComplexTypeDefinition.CT_EMPTY`. -/
def CT_EMPTY : Nat := 0
/-- Embeds `ComplexTypeDefinition.CT_SIMPLE`. -/
def CT_SIMPLE : Nat := 1
/-- Embeds `ComplexTypeDefinition.CT_MIXED`. -/
def CT_MIXED : Nat := 2
/-- Embeds `ComplexTypeDefinition.CT_ELEMENT_ONLY`. -/
def CT_ELEMENT_ONLY : Nat := 3

/-- Embeds `SimpleTypeDefinition.VARIETY_absent`. -/
def VARIETY_absent : Nat := 0x01
/-- Embeds `SimpleTypeDefinition.VARIETY_atomic`. -/
def VARIETY_atomic : Nat := 0x02
/-- Embeds `SimpleTypeDefinition.VARIETY_list`. -/
def VARIETY_list : Nat := 0x03
/-- Embeds `SimpleTypeDefinition.VARIETY_union`. -/
def VARIETY_union : Nat := 0x04

/-- Embeds `ModelGroup.C_SEQUENCE`. -/
def C_SEQUENCE : Nat := 0x03
/-- Embeds `ModelGroup.C_ALL`. -/
def C_ALL : Nat := 0x01
/-- Embeds `ModelGroup.C_CHOICE`. -/
def C_CHOICE : Nat := 0x02

/-- Embeds `Wildcard.NC_any`, the namespace constraint string. -/
def NC_any : String := "##any"

/-- Embeds `Wildcard.PC_skip`. -/
def PC_skip : Nat := 0x01
/-- Embeds `Wildcard.PC_lax`. -/
def PC_lax : Nat := 0x02
/-- Embeds `Wildcard.PC_strict`. -/
def PC_strict : Nat := 0x04

/-- A wildcard (section 3.10.1): a namespace constraint and a
process-contents policy.  Only the `NC_any` constraint is ever constructed
by the source, so the constraint is carried as its string value. -/
structure Wildcard where
  namespaceConstraint : String
  processContents : Nat
deriving DecidableEq, Repr

/-- The term of a particle.  The source stores an untyped reference; the
only term it ever constructs is a wildcard (the ur-type content model). -/
inductive PTerm where
  | wildcard (w : Wildcard)
deriving DecidableEq, Repr

/-- A particle: occurrence bounds and a term. -/
structure Particle where
  term : PTerm
  minOccurs : Nat
  maxOccurs : Option Nat
deriving DecidableEq, Repr

/-- Embeds `Particle.__init__`: raises `LogicError` when `maxOccurs` is not None
and `minOccurs > maxOccurs`. -/
def Particle.init (term : PTerm) (min_occurs : Nat) (max_occurs : Option Nat) :
    Except Err Particle :=
  match max_occurs with
  | some mx =>
      if min_occurs > mx then
        .error (.logicError "Particle minOccurs is greater than maxOccurs on creation")
      else .ok ⟨term, min_occurs, max_occurs⟩
  | none => .ok ⟨term, min_occurs, max_occurs⟩

/-- A model group: a compositor (one of the `C_*` values) and a list of
particles (`ModelGroup.__init__` copies the list). -/
structure ModelGroup where
  compositor : Nat
  particles : List Particle
deriving DecidableEq, Repr

/-- The value stored in `ComplexTypeDefinition.__contentType`: either the
plain int `CT_EMPTY`, or a pair of a content model and one of the `CT_*`
tags (the source also allows a (simple type, CT_SIMPLE) pair, which it
never constructs). -/
inductive ContentTypeVal where
  | ctInt (n : Nat)
  | pairModel (m : ModelGroup) (ct : Nat)
deriving DecidableEq, Repr

/-- A `PythonSimpleTypeSupport` (codec) instance: its single piece of
observable state is the back-reference to the simple type definition it is
bound to (`__simpleTypeDefinition`), which may be assigned only once. -/
structure PSTSObj where
  simpleTypeDefinition : Option Nat := none
deriving DecidableEq, Repr

/-- The `SimpleTypeDefinition` component (section 3.14).  Fields mirror
the source attributes; `facets`, `fundamentalFacets`, `final` and the
annotation attachment are never read or written by the embedded methods
and are omitted.  `hasW3cXMLSchema` stands for the `__w3cXMLSchema` cached
schema reference (a single schema session is modelled, so only presence is
observable). -/
structure SimpleTypeDefinition where
  name : Option String
  targetNamespace : Option XNamespace
  variety : Option Nat
  baseTypeDefinition : Option Nat := none
  primitiveTypeDefinition : Option Nat := none
  itemTypeDefinition : Option Nat := none
  memberTypeDefinitions : Option (List Nat) := none
  domNode : Option DomNode := none
  hasW3cXMLSchema : Bool := false
  isBuiltin : Bool := false
  pythonSupport : Option Nat := none

/-- The `ComplexTypeDefinition` component (section 3.4).  `finalDM` and
`prohibitedSubstitutions` carry the `DM_*` bitmask fields; the annotation
attachment is never used and is omitted. -/
structure ComplexTypeDefinition where
  name : Option String
  targetNamespace : Option XNamespace
  derivationMethod : Option Nat
  baseTypeDefinition : Option Nat := none
  finalDM : Nat := DM_empty
  abstract : Bool := false
  attributeUses : Option (List Nat) := none
  attributeWildcard : Option Wildcard := none
  contentType : Option ContentTypeVal := none
  prohibitedSubstitutions : Nat := DM_empty
  domNode : Option DomNode := none
  hasW3cXMLSchema : Bool := false

/-- A type definition in the arena: simple or complex. -/
inductive TypeDef where
  | simple (std : SimpleTypeDefinition)
  | complex (ctd : ComplexTypeDefinition)

/-- Embeds `isinstance(definition, ComplexTypeDefinition)`. -/
def TypeDef.isComplex : TypeDef → Bool
  | .simple _ => false
  | .complex _ => true

/-- Embeds `isResolved()`: a simple type is resolved when `variety` is set, a
complex type when `derivationMethod` is set. -/
def TypeDef.isResolved : TypeDef → Bool
  | .simple std => std.variety.isSome
  | .complex ctd => ctd.derivationMethod.isSome

/-- Embeds `localName()`. -/
def TypeDef.localName : TypeDef → Option String
  | .simple std => std.name
  | .complex ctd => ctd.name

/-- The target namespace of a definition. -/
def TypeDef.targetNamespace : TypeDef → Option XNamespace
  | .simple std => std.targetNamespace
  | .complex ctd => ctd.targetNamespace

/-- Embeds `name()`: the namespace-qualified name when both the local name and a
target namespace are present, the bare local name when only the name is
present, `None` otherwise. -/
def TypeDef.nameQ (d : TypeDef) : Option String :=
  match d.localName with
  | none => none
  | some n =>
      match d.targetNamespace with
      | some ns => some (ns.qualifiedName n)
      | none => some n

/-- The `Schema` registry: the local-name table (a Python dict, modelled
as an association list with unique keys maintained by `dictSet`), the
unresolved-definition queue (`None` after `_resolveTypeDefinitions`
completes), and the schema target namespace returned by
`getTargetNamespace` (an external accessor, modelled from the spec). -/
structure Schema where
  targetNamespace : Option XNamespace := none
  typeDefinitions : List (String × Nat) := []
  unresolvedTypeDefinitions : Option (List Nat) := some []

/-- The process state: the arena of type-definition objects, the arena of
codec objects, the two class-level singleton caches
(`ComplexTypeDefinition.__UrTypeDefinition` and
`SimpleTypeDefinition.__SimpleUrTypeDefinition`), and the single schema
session. -/
structure State where
  defs : List TypeDef := []
  psts : List PSTSObj := []
  urTypeDefinition : Option Nat := none
  simpleUrTypeDefinition : Option Nat := none
  schema : Schema := {}

/-- The result of running a stateful computation: a value or a raised
exception, each together with the state at that point (Python exceptions
do not undo earlier mutations). -/
inductive ResM (α : Type) where
  | ok (a : α) (s : State)
  | err (e : Err) (s : State)

/-- The state-and-exceptions monad in which the source methods run. -/
def M (α : Type) : Type := State → ResM α

/-- Monadic bind for `M`. -/
def M.bind (x : M α) (f : α → M β) : M β := fun s =>
  match x s with
  | .ok a s' => f a s'
  | .err e s' => .err e s'

/-- Monadic pure for `M`. -/
def M.pure (a : α) : M α := fun s => .ok a s

instance : Monad M where
  pure := M.pure
  bind := M.bind

/-- Raise a Python exception. -/
def M.throw (e : Err) : M α := fun s => .err e s

/-- Read the process state. -/
def M.get : M State := fun s => .ok s s

/-- Replace the process state. -/
def M.set (s' : State) : M Unit := fun _ => .ok () s'

/-- Update the process state. -/
def M.modify (f : State → State) : M Unit := fun s => .ok () (f s)

/-! ## Arena access helpers

A Python attribute access `obj.field` on a dangling or wrong-kind
reference would fail in the runtime; the helpers surface that as an
`attributeError`. -/

/-- Fetch the type definition object for a reference. -/
def getDef (i : Nat) : M TypeDef := fun s =>
  match s.defs.get? i with
  | some d => .ok d s
  | none => .err (.attributeError "invalid object reference") s

/-- Fetch a reference known to be a `SimpleTypeDefinition` (a name-mangled
attribute access on a non-STD object would raise in Python). -/
def getSTD (i : Nat) : M SimpleTypeDefinition := fun s =>
  match s.defs.get? i with
  | some (.simple std) => .ok std s
  | some (.complex _) => .err (.attributeError "SimpleTypeDefinition attribute on ComplexTypeDefinition") s
  | none => .err (.attributeError "invalid object reference") s

/-- Fetch a reference known to be a `ComplexTypeDefinition`. -/
def getCTD (i : Nat) : M ComplexTypeDefinition := fun s =>
  match s.defs.get? i with
  | some (.complex ctd) => .ok ctd s
  | some (.simple _) => .err (.attributeError "ComplexTypeDefinition attribute on SimpleTypeDefinition") s
  | none => .err (.attributeError "invalid object reference") s

/-- Mutate the simple type definition at a reference. -/
def modifySTD (i : Nat) (f : SimpleTypeDefinition → SimpleTypeDefinition) : M Unit := do
  let std ← getSTD i
  M.modify (fun s => { s with defs := s.defs.set i (.simple (f std)) })

/-- Mutate the complex type definition at a reference. -/
def modifyCTD (i : Nat) (f : ComplexTypeDefinition → ComplexTypeDefinition) : M Unit := do
  let ctd ← getCTD i
  M.modify (fun s => { s with defs := s.defs.set i (.complex (f ctd)) })

/-- Allocate a new type definition object, returning its reference. -/
def allocDef (d : TypeDef) : M Nat := fun s =>
  .ok s.defs.length { s with defs := s.defs ++ [d] }

/-- Embeds `PythonSimpleTypeSupport()`: allocate a fresh codec instance. -/
def newPSTS : M Nat := fun s =>
  .ok s.psts.length { s with psts := s.psts ++ [{ simpleTypeDefinition := none }] }

/-- Fetch a codec instance. -/
def getPSTS (p : Nat) : M PSTSObj := fun s =>
  match s.psts.get? p with
  | some o => .ok o s
  | none => .err (.attributeError "invalid object reference") s

/-- Mutate a codec instance. -/
def modifyPSTS (p : Nat) (f : PSTSObj → PSTSObj) : M Unit := do
  let o ← getPSTS p
  M.modify (fun s => { s with psts := s.psts.set p (f o) })

/-! ## Python dict operations for the registry -/

/-- Embeds `dict.get(key, None)`. -/
def dictGet : List (String × Nat) → String → Option Nat
  | [], _ => none
  | (k, v) :: rest, key => if k = key then some v else dictGet rest key

/-- Embeds `dict[key] = value` (replaces an existing binding, else appends). -/
def dictSet : List (String × Nat) → String → Nat → List (String × Nat)
  | [], key, v => [(key, v)]
  | (k, v0) :: rest, key, v =>
      if k = key then (key, v) :: rest else (k, v0) :: dictSet rest key v

/-! ## Schema methods -/

/-- Embeds `Schema._addUnresolvedTypeDefinition`: append to the unresolved queue
(appending after `_resolveTypeDefinitions` has set the queue to `None`
would be an `AttributeError` in Python). -/
def Schema.addUnresolvedTypeDefinition (i : Nat) : M Nat := do
  let s ← M.get
  match s.schema.unresolvedTypeDefinitions with
  | none => M.throw (.attributeError "NoneType has no attribute append")
  | some q => do
      M.set { s with schema := { s.schema with unresolvedTypeDefinitions := some (q ++ [i]) } }
      return i

/-- Embeds `Schema._lookupTypeDefinition(local_name)`. -/
def Schema.lookupTypeDefinition (local_name : String) : M (Option Nat) := do
  let s ← M.get
  return dictGet s.schema.typeDefinitions local_name

/-- Modelled from the spec: `wxs.lookupType`, the external lookup
collaborator ("look up a previously declared type ... by qualified name
string") consumed by the resolution methods but defined outside this
source file.  Per the source comment in `__initializeFromRestriction`, an
undeclared name raises an exception that percolates up to the user. -/
def Schema.lookupType (name : String) : M Nat := do
  let s ← M.get
  match dictGet s.schema.typeDefinitions name with
  | some i => return i
  | none => M.throw (.schemaValidationError ("No type definition named " ++ name))

/-- Modelled from the spec: `wxs.lookupSimpleType`, the simple-type lookup
collaborator; modelled like `lookupType` (a wrong-kind result surfaces
downstream as an attribute error, as it would in Python through the
name-mangled attribute accesses). -/
def Schema.lookupSimpleType (name : String) : M Nat :=
  Schema.lookupType name

/-- Modelled from the spec: `wxs.getTargetNamespace()`, the accessor for
the schema target namespace. -/
def Schema.getTargetNamespace : M (Option XNamespace) := do
  let s ← M.get
  return s.schema.targetNamespace

/-! ## Document query helpers (`LocateUniqueChild`, `LocateFirstChildElement`) -/

/-- The scanning loop of `LocateUniqueChild`: walk the child nodes,
remembering the unique candidate whose `nodeName` matches; a second match
is a structural error. -/
def locateUniqueChildLoop (name parent_name : String) :
    List DomNode → Option DomNode → M (Option DomNode)
  | [], candidate => return candidate
  | cn :: rest, candidate =>
      if cn.nodeName = name then
        match candidate with
        | some _ =>
            M.throw (.schemaValidationError
              ("Multiple " ++ name ++ " elements nested in " ++ parent_name))
        | none => locateUniqueChildLoop name parent_name rest (some cn)
      else locateUniqueChildLoop name parent_name rest candidate

/-- Embeds `LocateUniqueChild(node, schema, tag, absent_ok)`. -/
def LocateUniqueChild (node : DomNode) (tag : String) (absent_ok : Bool) :
    M (Option DomNode) := do
  let name := xsQualifiedName tag
  let candidate ← locateUniqueChildLoop name node.nodeName node.childNodes none
  if candidate.isNone && !absent_ok then
    M.throw (.schemaValidationError
      ("Expected " ++ name ++ " elements nested in " ++ node.nodeName))
  return candidate

/-- The scanning loop of `LocateFirstChildElement`: in non-unique mode the
first element child is returned immediately; in unique mode a second
element child is a structural error. -/
def locateFirstChildElementLoop (parent_name : String) (require_unique : Bool) :
    List DomNode → Option DomNode → M (Option DomNode)
  | [], candidate => return candidate
  | cn :: rest, candidate =>
      if cn.isElement then
        if require_unique then
          match candidate with
          | some _ =>
              M.throw (.schemaValidationError ("Multiple elements nested in " ++ parent_name))
          | none => locateFirstChildElementLoop parent_name require_unique rest (some cn)
        else return (some cn)
      else locateFirstChildElementLoop parent_name require_unique rest candidate

/-- Embeds `LocateFirstChildElement(node, absent_ok, require_unique)`. -/
def LocateFirstChildElement (node : DomNode) (absent_ok require_unique : Bool) :
    M (Option DomNode) := do
  let candidate ← locateFirstChildElementLoop node.nodeName require_unique node.childNodes none
  if candidate.isNone && !absent_ok then
    M.throw (.schemaValidationError ("No elements nested in " ++ node.nodeName))
  return candidate

/-! ## Codec binding -/

/-- Embeds `PythonSimpleTypeSupport._setSimpleTypeDefinition`: the back-reference
may be assigned only once; a second assignment on the same codec instance
raises `LogicError`. -/
def PSTSObj.setSimpleTypeDefinition (p : Nat) (stdRef : Nat) : M Nat := do
  let o ← getPSTS p
  if o.simpleTypeDefinition.isSome then
    M.throw (.logicError "Multiple assignments of SimpleTypeDefinition to PythonSTSupport")
  modifyPSTS p (fun o => { o with simpleTypeDefinition := some stdRef })
  return p

/-- Embeds `SimpleTypeDefinition._setPythonSupport`: store the codec reference on
the definition, then bind the back-reference (in that order, as in the
source: the forward reference is assigned before the codec-side
single-assignment check runs). -/
def SimpleTypeDefinition.setPythonSupport (i : Nat) (python_support : Nat) : M Nat := do
  modifySTD i (fun std => { std with pythonSupport := some python_support })
  let _ ← PSTSObj.setSimpleTypeDefinition python_support i
  let std ← getSTD i
  match std.pythonSupport with
  | some p => return p
  | none => M.throw (.attributeError "pythonSupport")

/-! ## The built-in bootstrap singletons -/

/-- Embeds `ComplexTypeDefinition.UrTypeDefinition(xs_namespace=None)`: the
idempotent factory for the complex ur-type.  The first call must carry a
namespace and constructs `anyType` with derivation by restriction, itself
as base type, an any/lax attribute wildcard, no attribute uses, and mixed
content whose model is a single unbounded any/lax-wildcard particle.
Calling again with a namespace raises `LogicError`; calling without one
returns the cached singleton. -/
def ComplexTypeDefinition.UrTypeDefinition (xs_namespace : Option XNamespace) : M Nat := do
  let s ← M.get
  if xs_namespace.isSome && s.urTypeDefinition.isSome then
    M.throw (.logicError "Multiple definitions of UrType")
  match s.urTypeDefinition with
  | some i => return i
  | none => do
      if xs_namespace.isNone then M.throw (.assertionError "xs_namespace")
      let i ← allocDef (.complex
        { name := some "anyType"
          targetNamespace := xs_namespace
          derivationMethod := some DM_restriction })
      -- The ur-type is its own baseTypeDefinition
      modifyCTD i (fun ctd => { ctd with baseTypeDefinition := some i })
      -- No constraints on attributes
      let aw : Wildcard := { namespaceConstraint := NC_any, processContents := PC_lax }
      modifyCTD i (fun ctd => { ctd with attributeWildcard := some aw })
      -- Content is mixed, with elements completely unconstrained.  (The
      -- source also constructs a second wildcard `w` here that it never
      -- uses; the particle term is the attribute wildcard.)
      let p ← match Particle.init (.wildcard aw) 0 none with
        | .ok p => pure p
        | .error e => M.throw e
      let m : ModelGroup := { compositor := C_SEQUENCE, particles := [p] }
      modifyCTD i (fun ctd => { ctd with contentType := some (.pairModel m CT_MIXED) })
      -- No attribute uses
      modifyCTD i (fun ctd => { ctd with attributeUses := some [] })
      -- No constraints on extension or substitution
      modifyCTD i (fun ctd =>
        { ctd with finalDM := DM_empty, prohibitedSubstitutions := DM_empty, abstract := false })
      M.modify (fun s => { s with urTypeDefinition := some i })
      return i

/-- Embeds `SimpleTypeDefinition.SimpleUrTypeDefinition(xs_namespace=None)`: the
idempotent factory for `anySimpleType` (variety absent, base the complex
ur-type, bound to a fresh trivial codec). -/
def SimpleTypeDefinition.SimpleUrTypeDefinition (xs_namespace : Option XNamespace) : M Nat := do
  let s ← M.get
  if xs_namespace.isSome && s.simpleUrTypeDefinition.isSome then
    M.throw (.logicError "Multiple definitions of SimpleUrType")
  match s.simpleUrTypeDefinition with
  | some i => return i
  | none => do
      if xs_namespace.isNone then M.throw (.assertionError "xs_namespace")
      let i ← allocDef (.simple
        { name := some "anySimpleType"
          targetNamespace := xs_namespace
          variety := some VARIETY_absent })
      let p ← newPSTS
      let _ ← SimpleTypeDefinition.setPythonSupport i p
      -- The baseTypeDefinition is the ur-type (no namespace argument:
      -- the complex ur-type must already exist).
      let ur ← ComplexTypeDefinition.UrTypeDefinition none
      modifySTD i (fun std => { std with baseTypeDefinition := some ur })
      M.modify (fun s => { s with simpleUrTypeDefinition := some i })
      return i

/-- Embeds `SimpleTypeDefinition.CreatePrimitiveInstance`: variety atomic, base
the simple ur-type, itself as its primitive type definition, built-in. -/
def SimpleTypeDefinition.CreatePrimitiveInstance
    (name : String) (target_namespace : Option XNamespace) (python_support : Nat) : M Nat := do
  let i ← allocDef (.simple
    { name := some name, targetNamespace := target_namespace, variety := some VARIETY_atomic })
  let _ ← SimpleTypeDefinition.setPythonSupport i python_support
  let ur ← SimpleTypeDefinition.SimpleUrTypeDefinition none
  modifySTD i (fun std =>
    { std with baseTypeDefinition := some ur, primitiveTypeDefinition := some i,
               isBuiltin := true })
  return i

/-- Embeds `SimpleTypeDefinition.CreateDerivedInstance`: variety copied from the
parent (asserted absent or atomic), base the parent, primitive type copied
from the parent when atomic, built-in. -/
def SimpleTypeDefinition.CreateDerivedInstance
    (name : String) (target_namespace : Option XNamespace) (parent_std : Nat)
    (python_support : Nat) : M Nat := do
  let parent ← getSTD parent_std
  if !(parent.variety = some VARIETY_absent ∨ parent.variety = some VARIETY_atomic) then
    M.throw (.assertionError "parent_std.variety in (VARIETY_absent, VARIETY_atomic)")
  let i ← allocDef (.simple
    { name := some name, targetNamespace := target_namespace, variety := parent.variety })
  let _ ← SimpleTypeDefinition.setPythonSupport i python_support
  modifySTD i (fun std => { std with baseTypeDefinition := some parent_std })
  let self ← getSTD i
  if some VARIETY_atomic = self.variety then
    modifySTD i (fun std => { std with primitiveTypeDefinition := parent.primitiveTypeDefinition })
  modifySTD i (fun std => { std with isBuiltin := true })
  return i

/-- Embeds `SimpleTypeDefinition.CreateListInstance`: variety list, base the
simple ur-type, the given item type, no dedicated codec, built-in. -/
def SimpleTypeDefinition.CreateListInstance
    (name : String) (target_namespace : Option XNamespace) (item_std : Nat) : M Nat := do
  let i ← allocDef (.simple
    { name := some name, targetNamespace := target_namespace, variety := some VARIETY_list })
  let ur ← SimpleTypeDefinition.SimpleUrTypeDefinition none
  modifySTD i (fun std =>
    { std with baseTypeDefinition := some ur, itemTypeDefinition := some item_std,
               isBuiltin := true })
  return i

/-- Embeds `SimpleTypeDefinition.CreateUnionInstance`: unimplemented. -/
def SimpleTypeDefinition.CreateUnionInstance
    (_name : String) (_target_namespace : Option XNamespace) (_member_stds : List Nat) : M Nat :=
  M.throw (.incompleteImplementationError "No support for built-in union types")

/-! ## Construction from a document node -/

/-- Embeds `SimpleTypeDefinition.CreateFromDOM`: reject an unexpected tag, raise
on a `final` attribute before anything is constructed or queued, then
allocate the unresolved definition (variety unset, document node and
schema reference held) and queue it for resolution. -/
def SimpleTypeDefinition.CreateFromDOM (node : DomNode) : M Nat := do
  if node.nodeName ≠ xsQualifiedName "simpleType" then
    M.throw (.assertionError "xsQualifiedName simpleType == node.nodeName")
  if node.hasAttribute "final" then
    M.throw (.incompleteImplementationException "\"final\" attribute not currently supported")
  let name := if node.hasAttribute "name" then some (node.getAttribute "name") else none
  let tns ← Schema.getTargetNamespace
  let i ← allocDef (.simple
    { name := name, targetNamespace := tns, variety := none,
      domNode := some node, hasW3cXMLSchema := true })
  let _ ← Schema.addUnresolvedTypeDefinition i
  return i

/-- Embeds `ComplexTypeDefinition.CreateFromDOM`: allocate the unresolved
definition (derivation method unset) and queue it for resolution. -/
def ComplexTypeDefinition.CreateFromDOM (node : DomNode) : M Nat := do
  if node.nodeName ≠ xsQualifiedName "complexType" then
    M.throw (.assertionError "xsQualifiedName complexType == node.nodeName")
  let name := if node.hasAttribute "name" then some (node.getAttribute "name") else none
  let tns ← Schema.getTargetNamespace
  let i ← allocDef (.complex
    { name := name, targetNamespace := tns, derivationMethod := none,
      domNode := some node, hasW3cXMLSchema := true })
  let _ ← Schema.addUnresolvedTypeDefinition i
  return i

/-! ## Simple type resolution -/

/-- The scanning loop of `__singleSimpleTypeChild`: every element child
must be a `simpleType`, and there must be exactly one. -/
def singleSimpleTypeChildLoop : List DomNode → Option DomNode → M (Option DomNode)
  | [], acc => return acc
  | cn :: rest, acc =>
      if cn.isElement then
        if cn.nodeName ≠ xsQualifiedName "simpleType" then
          M.throw (.assertionError "xsQualifiedName simpleType == cn.nodeName")
        else
          match acc with
          | some _ => M.throw (.assertionError "not simple_type_child")
          | none => singleSimpleTypeChildLoop rest (some cn)
      else singleSimpleTypeChildLoop rest acc

/-- Embeds `SimpleTypeDefinition.__singleSimpleTypeChild`. -/
def SimpleTypeDefinition.singleSimpleTypeChild (body : DomNode) : M DomNode := do
  let c ← singleSimpleTypeChildLoop body.childNodes none
  match c with
  | some cn => return cn
  | none => M.throw (.assertionError "simple_type_child")

/-- The `while VARIETY_atomic == ptd.__variety` walk of
`__completeResolution`: follow `baseTypeDefinition` links while the node
is still of atomic variety, and return the first node that is not (the
source assigns that node, not the last atomic one, as the primitive type
definition).  The source loop is unbounded; `fuel` is a modelling bound,
always called with more fuel than there are objects in the arena. -/
def primitiveWalk : Nat → Nat → M Nat
  | 0, _ => M.throw .fuelExhausted
  | fuel + 1, ptdRef => do
      let ptd ← getSTD ptdRef
      if some VARIETY_atomic = ptd.variety then
        match ptd.baseTypeDefinition with
        | none => M.throw (.assertionError "ptd.baseTypeDefinition")
        | some b => primitiveWalk fuel b
      else return ptdRef

/-- The member-collection loop of the union alternative of
`__completeResolution`: construct-and-queue a definition from each
`simpleType` element child, in document order. -/
def collectUnionMembers : List DomNode → M (List Nat)
  | [] => return []
  | cn :: rest =>
      if cn.isElement && cn.nodeName = xsQualifiedName "simpleType" then do
        let i ← SimpleTypeDefinition.CreateFromDOM cn
        let restIds ← collectUnionMembers rest
        return i :: restIds
      else collectUnionMembers rest

/-- Embeds `SimpleTypeDefinition.__completeResolution(wxs, body, alternative)`:
complete the resolution of each variety.  For atomic variety the walk
assigns the first non-atomic ancestor (see `primitiveWalk`); for list
variety the item type comes from the `itemType` attribute, an anonymous
nested `simpleType`, or the base; the union/restriction alternative reads
the unmangled attribute `__baseTypeDefinition__`, which does not exist on
the instance and raises `AttributeError` in Python. -/
def SimpleTypeDefinition.completeResolution (i : Nat) (body : DomNode)
    (alternative : String) : M Unit := do
  let self ← getSTD i
  if self.variety.isNone then M.throw (.assertionError "self.variety is not None")
  if self.variety = some VARIETY_absent then
    -- The ur-type is always resolved.  So are restrictions of it.
    return
  else if self.variety = some VARIETY_atomic then do
    let s ← M.get
    let ptd ← primitiveWalk (s.defs.length + 1) i
    modifySTD i (fun std => { std with primitiveTypeDefinition := some ptd })
  else if self.variety = some VARIETY_list then
    if alternative = "list" then
      if body.hasAttribute "itemType" then do
        let it ← Schema.lookupSimpleType (body.getAttribute "itemType")
        modifySTD i (fun std => { std with itemTypeDefinition := some it })
      else do
        -- The newly created anonymous item type is queued, not resolved.
        let child ← SimpleTypeDefinition.singleSimpleTypeChild body
        let it ← SimpleTypeDefinition.CreateFromDOM child
        modifySTD i (fun std => { std with itemTypeDefinition := some it })
    else if alternative = "restriction" then do
      let self ← getSTD i
      match self.baseTypeDefinition with
      | none => M.throw (.attributeError "NoneType has no attribute itemTypeDefinition")
      | some b => do
          let base ← getSTD b
          modifySTD i (fun std => { std with itemTypeDefinition := base.itemTypeDefinition })
    else
      M.throw (.logicError ("completeResolution list variety with alternative " ++ alternative))
  else if self.variety = some VARIETY_union then
    if alternative = "union" then do
      if body.hasAttribute (xsQualifiedName "memberTypes") then
        M.throw (.incompleteImplementationError "union needs to extract names from memberTypes")
      let mtd ← collectUnionMembers body.childNodes
      modifySTD i (fun std => { std with memberTypeDefinitions := some mtd })
    else if alternative = "restriction" then
      -- The source reads `self.__baseTypeDefinition__`, an attribute name
      -- that (unlike `__baseTypeDefinition`) is not subject to name
      -- mangling and does not exist: AttributeError.
      M.throw (.attributeError "baseTypeDefinition__")
    else
      M.throw (.logicError ("completeResolution union variety with alternative " ++ alternative))
  else
    M.throw (.logicError "completeResolution with unknown variety")

/-- Embeds `SimpleTypeDefinition.__initializeFromList`: variety list, base the
simple ur-type, then complete with the list alternative. -/
def SimpleTypeDefinition.initializeFromList (i : Nat) (body : DomNode) : M Unit := do
  let ur ← SimpleTypeDefinition.SimpleUrTypeDefinition none
  modifySTD i (fun std => { std with variety := some VARIETY_list, baseTypeDefinition := some ur })
  SimpleTypeDefinition.completeResolution i body "list"

/-- Embeds `SimpleTypeDefinition.__initializeFromRestriction`: resolve the `base`
attribute by name (absence of a registered type raises); when the base
exists but is not yet resolved, re-queue self and return without error;
otherwise take the base (or the simple ur-type when no `base` attribute),
inherit its variety, and complete with the restriction alternative. -/
def SimpleTypeDefinition.initializeFromRestriction (i : Nat) (body : DomNode) : M Unit := do
  if body.hasAttribute "base" then do
    let base_name := body.getAttribute "base"
    let base_type ← Schema.lookupSimpleType base_name
    let baseDef ← getDef base_type
    if !baseDef.isResolved then do
      let _ ← Schema.addUnresolvedTypeDefinition i
      return
    else do
    modifySTD i (fun std => { std with baseTypeDefinition := some base_type })
    let self ← getSTD i
    match self.baseTypeDefinition with
    | none => M.throw (.attributeError "baseTypeDefinition")
    | some b => do
        let base ← getSTD b
        modifySTD i (fun std => { std with variety := base.variety })
        SimpleTypeDefinition.completeResolution i body "restriction"
  else do
    let ur ← SimpleTypeDefinition.SimpleUrTypeDefinition none
    modifySTD i (fun std => { std with baseTypeDefinition := some ur })
    let self ← getSTD i
    match self.baseTypeDefinition with
    | none => M.throw (.attributeError "baseTypeDefinition")
    | some b => do
        let base ← getSTD b
        modifySTD i (fun std => { std with variety := base.variety })
        SimpleTypeDefinition.completeResolution i body "restriction"

/-- Embeds `SimpleTypeDefinition.__initializeFromUnion`: variety union, base the
simple ur-type, then complete with the union alternative. -/
def SimpleTypeDefinition.initializeFromUnion (i : Nat) (body : DomNode) : M Unit := do
  let ur ← SimpleTypeDefinition.SimpleUrTypeDefinition none
  modifySTD i (fun std => { std with variety := some VARIETY_union, baseTypeDefinition := some ur })
  SimpleTypeDefinition.completeResolution i body "union"

/-- Embeds `SimpleTypeDefinition._resolve`: no-op when already resolved;
otherwise inspect the document node for the three child forms.  A `list`
child initializes list variety; a `restriction` child initializes from the
restriction if the variety is still unset, else marks the instance bad;
likewise `union`.  Two forms present is a structural error; no form
present is not an error (the method returns with the type still
unresolved). -/
def SimpleTypeDefinition.resolve (i : Nat) : M Unit := do
  let self ← getSTD i
  if self.variety.isSome then return
  else
  match self.domNode with
  | none => M.throw (.assertionError "self.domNode and self.w3cXMLSchema")
  | some node => do
      if !self.hasW3cXMLSchema then
        M.throw (.assertionError "self.domNode and self.w3cXMLSchema")
      let candidate ← LocateUniqueChild node "list" true
      match candidate with
      | some c => SimpleTypeDefinition.initializeFromList i c
      | none => pure ()
      let self ← getSTD i
      let candidate ← LocateUniqueChild node "restriction" true
      let bad1 ← match candidate with
        | some c =>
            if self.variety.isNone then do
              SimpleTypeDefinition.initializeFromRestriction i c
              pure false
            else pure true
        | none => pure false
      let self ← getSTD i
      let candidate ← LocateUniqueChild node "union" true
      let bad2 ← match candidate with
        | some c =>
            if self.variety.isNone then do
              SimpleTypeDefinition.initializeFromUnion i c
              pure false
            else pure true
        | none => pure false
      -- It is NOT an error to fail to resolve the type.
      if bad1 || bad2 then
        M.throw (.schemaValidationError
          "Expected exactly one of list, restriction, union as child of simpleType")

/-! ## Complex type resolution -/

/-- Modelled from the spec: `datatypes.boolean.StringToPython`, the
external codec capability for the boolean primitive (lexical space per
XML Schema Datatypes); a bad lexical value raises `BadTypeValueError`. -/
def booleanStringToPython (value : String) : M Bool :=
  if value = "true" ∨ value = "1" then M.pure true
  else if value = "false" ∨ value = "0" then M.pure false
  else M.throw (.badTypeValueError ("Invalid boolean value " ++ value))

/-- Embeds `ComplexTypeDefinition.__completeSimpleResolution`: a stub in the
source — it re-queues the instance and does nothing else (no field is
set, so the instance never becomes resolved on this path). -/
def ComplexTypeDefinition.completeSimpleResolution (i : Nat)
    (_definition_node_list : List DomNode) (_method : Nat) (_base_type : Nat) : M Unit := do
  let _ ← Schema.addUnresolvedTypeDefinition i
  return

/-- Embeds `ComplexTypeDefinition.__completeComplexResolution`: a stub in the
source — it re-queues the instance and does nothing else. -/
def ComplexTypeDefinition.completeComplexResolution (i : Nat)
    (_definition_node_list : List DomNode) (_method : Nat) (_base_type : Nat) : M Unit := do
  let _ ← Schema.addUnresolvedTypeDefinition i
  return

/-- Embeds `ComplexTypeDefinition._resolve`: no-op when already resolved; parse
an `abstract` attribute; default to derivation by restriction from the
complex ur-type with the own children of the node as content nodes; on a
`simpleContent`/`complexContent` wrapper, require a `restriction` or
`extension` child carrying a `base` attribute, defer (re-queue and return)
when the named base is not yet resolved, and take the children of the
wrapper child as content nodes; finally dispatch to the (stub) completion
methods.  Note `LocateFirstChildElement` is called with `absent_ok` false,
so a childless type node raises a structural error here. -/
def ComplexTypeDefinition.resolve (i : Nat) : M Unit := do
  let self ← getCTD i
  if self.derivationMethod.isSome then return
  else
  match self.domNode with
  | none => M.throw (.assertionError "self.domNode and self.w3cXMLSchema")
  | some node => do
      if !self.hasW3cXMLSchema then
        M.throw (.assertionError "self.domNode and self.w3cXMLSchema")
      if node.hasAttribute "abstract" then do
        let b ← booleanStringToPython (node.getAttribute "abstract")
        modifyCTD i (fun ctd => { ctd with abstract := b })
      let base_type0 ← ComplexTypeDefinition.UrTypeDefinition none
      let first_elt ← LocateFirstChildElement node false false
      match first_elt with
      | none =>
          -- Unreachable (absent_ok is false); mirrors `if first_elt:`
          -- falling through to the default completion.
          ComplexTypeDefinition.completeComplexResolution i node.childNodes DM_restriction base_type0
      | some fe => do
          let have_content :=
            (fe.nodeName = xsQualifiedName "simpleContent")
            || (fe.nodeName = xsQualifiedName "complexContent")
          let is_complex_content := fe.nodeName ≠ xsQualifiedName "simpleContent"
          if have_content then do
            let ionsOpt ← LocateFirstChildElement fe false false
            match ionsOpt with
            | none => M.throw (.attributeError "NoneType has no attribute nodeName")
            | some ions => do
                let method ←
                  if ions.nodeName = xsQualifiedName "restriction" then pure DM_restriction
                  else if ions.nodeName = xsQualifiedName "extension" then pure DM_extension
                  else
                    -- The source formats this error with `first_elt.name()`,
                    -- a method DOM elements do not have: AttributeError.
                    M.throw (.attributeError "Element instance has no attribute name")
                if !(ions.hasAttribute "base") then
                  M.throw (.schemaValidationError
                    ("Element " ++ ions.nodeName ++ " missing base attribute"))
                let base_type ← Schema.lookupType (ions.getAttribute "base")
                let baseDef ← getDef base_type
                if !baseDef.isResolved then do
                  let _ ← Schema.addUnresolvedTypeDefinition i
                  return
                else do
                let definition_node_list := ions.childNodes
                if is_complex_content then
                  ComplexTypeDefinition.completeComplexResolution i definition_node_list method base_type
                else
                  ComplexTypeDefinition.completeSimpleResolution i definition_node_list method base_type
          else
            ComplexTypeDefinition.completeComplexResolution i node.childNodes DM_restriction base_type0

/-! ## The built-in/schema-defined merge protocol -/

/-- Embeds `SimpleTypeDefinition._setFromInstance`: absorb the document-node
reference of an unresolved schema-defined definition into this (built-in)
instance and mark it unresolved for re-resolution; every other field of
this instance (identity, codec binding) is untouched. -/
def SimpleTypeDefinition.setFromInstance (selfRef otherRef : Nat) : M Nat := do
  let self ← getSTD selfRef
  let other ← getSTD otherRef
  if self.name ≠ other.name then M.throw (.assertionError "self.name == other.name")
  if self.targetNamespace ≠ other.targetNamespace then
    M.throw (.assertionError "self.targetNamespace == other.targetNamespace")
  -- The other STD should be an unresolved schema-defined type.
  if other.baseTypeDefinition.isSome then
    M.throw (.assertionError "other.baseTypeDefinition is None")
  match other.domNode with
  | none => M.throw (.assertionError "other.domNode is not None")
  | some nd => do
      modifySTD selfRef (fun std => { std with domNode := some nd })
      if !other.hasW3cXMLSchema then
        M.throw (.assertionError "other.w3cXMLSchema is not None")
      modifySTD selfRef (fun std => { std with hasW3cXMLSchema := true })
      -- Mark this instance as unresolved so it is re-examined
      modifySTD selfRef (fun std => { std with variety := none })
      return selfRef

/-- Embeds `ComplexTypeDefinition._setFromInstance`: the complex-type analogue. -/
def ComplexTypeDefinition.setFromInstance (selfRef otherRef : Nat) : M Nat := do
  let self ← getCTD selfRef
  let other ← getCTD otherRef
  if self.name ≠ other.name then M.throw (.assertionError "self.name == other.name")
  if self.targetNamespace ≠ other.targetNamespace then
    M.throw (.assertionError "self.targetNamespace == other.targetNamespace")
  if other.derivationMethod.isSome then
    M.throw (.assertionError "other.derivationMethod is None")
  match other.domNode with
  | none => M.throw (.assertionError "other.domNode is not None")
  | some nd => do
      modifyCTD selfRef (fun ctd => { ctd with domNode := some nd })
      if !other.hasW3cXMLSchema then
        M.throw (.assertionError "other.w3cXMLSchema is not None")
      modifyCTD selfRef (fun ctd => { ctd with hasW3cXMLSchema := true })
      modifyCTD selfRef (fun ctd => { ctd with derivationMethod := none })
      return selfRef

/-- Kind dispatch for `_setFromInstance`. -/
def TypeDef.setFromInstance (selfRef otherRef : Nat) : M Nat := do
  let d ← getDef selfRef
  match d with
  | .simple _ => SimpleTypeDefinition.setFromInstance selfRef otherRef
  | .complex _ => ComplexTypeDefinition.setFromInstance selfRef otherRef

/-- Embeds `Schema._addTypeDefinition`: insert a definition under its local name;
on a name collision the kinds must match, the colliding new definition is
removed from the unresolved queue, the existing (built-in) definition is
appended to the queue and absorbs the new definition via
`_setFromInstance`, and the existing definition is returned as the
canonical one (the registry continues to map the name to it). -/
def Schema.addTypeDefinition (definition : Nat) : M Nat := do
  let d ← getDef definition
  let local_name ← match d.localName with
    | some n => pure n
    | none => M.throw (.attributeError "NoneType has no attribute find")
  -- `assert 0 > local_name.find(':')` (the check is written over the
  -- character list so that it evaluates by kernel reduction)
  if local_name.data.contains ':' then M.throw (.assertionError "0 > local_name.find")
  let s ← M.get
  match dictGet s.schema.typeDefinitions local_name with
  | some oldRef => do
      let oldD ← getDef oldRef
      if d.isComplex ≠ oldD.isComplex then
        M.throw (.schemaValidationError
          ("Name " ++ (d.nameQ.getD "None") ++ " used for both simple and complex types"))
      -- Copy schema-related information from the new definition into the
      -- old one, and continue to use the old one.
      let q ← match s.schema.unresolvedTypeDefinitions with
        | some q => pure q
        | none => M.throw (.typeError "argument of type NoneType is not iterable")
      if definition ∉ q then
        M.throw (.assertionError "definition in self.unresolvedTypeDefinitions")
      let q1 := q.erase definition
      if oldRef ∈ q1 then
        M.throw (.assertionError "old_definition not in self.unresolvedTypeDefinitions")
      M.modify (fun s =>
        { s with schema := { s.schema with unresolvedTypeDefinitions := some (q1 ++ [oldRef]) } })
      TypeDef.setFromInstance oldRef definition
  | none => do
      M.modify (fun s =>
        { s with schema :=
          { s.schema with typeDefinitions := dictSet s.schema.typeDefinitions local_name definition } })
      return definition

/-! ## The fixpoint driver -/

/-- Resolve one queued definition (`std._resolve()` dispatched by kind). -/
def Schema.resolveOne (i : Nat) : M Unit := do
  let d ← getDef i
  match d with
  | .simple _ => SimpleTypeDefinition.resolve i
  | .complex _ => ComplexTypeDefinition.resolve i

/-- One pass of the driver: resolve each member of the queue snapshot in
order. -/
def Schema.resolvePass : List Nat → M Unit
  | [] => return
  | i :: rest => do
      Schema.resolveOne i
      Schema.resolvePass rest

/-- The names of the stuck definitions, as joined into the
non-convergence message (an unnamed definition would make the Python
string join raise `TypeError`). -/
def namesOf : List Nat → M (List String)
  | [] => return []
  | i :: rest => do
      let d ← getDef i
      match d.nameQ with
      | none => M.throw (.typeError "sequence item: expected string, NoneType found")
      | some n => do
          let ns ← namesOf rest
          return n :: ns

/-- The `while self.__unresolvedTypeDefinitions:` loop of
`Schema._resolveTypeDefinitions`: snapshot the queue, reset it, resolve
the snapshot, and raise the non-convergence `LogicError` (naming the
stuck definitions) when the queue after the pass is identical to the
snapshot.  The source loop is unbounded; `fuel` bounds the number of
passes in the model. -/
def Schema.resolveTypeDefinitionsLoop : Nat → M Unit
  | 0 => M.throw .fuelExhausted
  | fuel + 1 => do
      let s ← M.get
      match s.schema.unresolvedTypeDefinitions with
      | none => return
      | some [] => return
      | some (u :: us) => do
          M.set { s with schema := { s.schema with unresolvedTypeDefinitions := some [] } }
          Schema.resolvePass (u :: us)
          let s2 ← M.get
          if s2.schema.unresolvedTypeDefinitions = some (u :: us) then do
            let names ← namesOf ((s2.schema.unresolvedTypeDefinitions).getD [])
            M.throw (.logicError
              ("Infinite loop resolving types: " ++ String.intercalate " " names))
          else
            Schema.resolveTypeDefinitionsLoop fuel

/-- Embeds `Schema._resolveTypeDefinitions`: run the driver loop to completion,
then drop the queue (set it to `None`). -/
def Schema.resolveTypeDefinitions (fuel : Nat) : M Unit := do
  Schema.resolveTypeDefinitionsLoop fuel
  M.modify (fun s => { s with schema := { s.schema with unresolvedTypeDefinitions := none } })

/-! ## Bootstrap and concrete scenarios

The scenarios run in a single schema session whose target namespace is the
XMLSchema namespace (modelled as the string `xs`), matching the intended
use in which the schema for schemas re-declares the built-in types. -/

/-- The initial process state: empty arenas, no singletons, one schema
session for the `xs` namespace. -/
def initialState : State := { schema := { targetNamespace := some "xs" } }

/-- The built-in bootstrap (spec section 4.1): the two ur-type singletons
and the `string` primitive bound to a codec, registered with the schema
registry.  Object references afterwards: 0 = `anyType`, 1 =
`anySimpleType`, 2 = `string`; codecs: 0 = the trivial identity codec of
`anySimpleType`, 1 = the `string` codec. -/
def bootstrap : M Unit := do
  let _ ← ComplexTypeDefinition.UrTypeDefinition (some "xs")
  let _ ← SimpleTypeDefinition.SimpleUrTypeDefinition (some "xs")
  let p ← newPSTS
  let stringRef ← SimpleTypeDefinition.CreatePrimitiveInstance "string" (some "xs") p
  let _ ← Schema.addTypeDefinition stringRef
  return

/-- The state after the bootstrap, written out explicitly (the theorem
`bootstrap_reaches_bootState` proves that running `bootstrap` from
`initialState` succeeds and lands exactly here). -/
def bootState : State :=
  { defs := [.complex { name := (some "anyType"), targetNamespace := (some "xs"), derivationMethod := (some 2), baseTypeDefinition := (some 0), finalDM := 0, abstract := false, attributeUses := (some []), attributeWildcard := (some { namespaceConstraint := "##any", processContents := 2 }), contentType := (some (.pairModel { compositor := 3, particles := [{ term := .wildcard { namespaceConstraint := "##any", processContents := 2 }, minOccurs := 0, maxOccurs := none }] } 2)), prohibitedSubstitutions := 0, domNode := none, hasW3cXMLSchema := false },
      .simple { name := (some "anySimpleType"), targetNamespace := (some "xs"), variety := (some 1), baseTypeDefinition := (some 0), primitiveTypeDefinition := none, itemTypeDefinition := none, memberTypeDefinitions := none, domNode := none, hasW3cXMLSchema := false, isBuiltin := false, pythonSupport := (some 0) },
      .simple { name := (some "string"), targetNamespace := (some "xs"), variety := (some 2), baseTypeDefinition := (some 1), primitiveTypeDefinition := (some 2), itemTypeDefinition := none, memberTypeDefinitions := none, domNode := none, hasW3cXMLSchema := false, isBuiltin := true, pythonSupport := (some 1) }],
    psts := [{ simpleTypeDefinition := (some 1) }, { simpleTypeDefinition := (some 2) }],
    urTypeDefinition := (some 0),
    simpleUrTypeDefinition := (some 1),
    schema := { targetNamespace := (some "xs"), typeDefinitions := [("string", 2)], unresolvedTypeDefinitions := (some []) } }

/-- The document node `simpleType name="Grade"` with child
`restriction base="string"`. -/
def gradeNode : DomNode :=
  .element "simpleType" [("name", "Grade")]
    [.element "restriction" [("base", "string")] []]

/-- The C1 scenario: bootstrap, read `Grade` from the document, register
it, and drive resolution to completion. -/
def c1Run : M Nat := do
  bootstrap
  let g ← SimpleTypeDefinition.CreateFromDOM gradeNode
  let _ ← Schema.addTypeDefinition g
  Schema.resolveTypeDefinitions 10
  return g

/-- The document node `complexType name="Empty"` with no children. -/
def emptyComplexNode : DomNode := .element "complexType" [("name", "Empty")] []

/-- The C2 scenario: bootstrap, read `Empty` from the document, register
it, and drive resolution. -/
def c2Run : M Nat := do
  bootstrap
  let e ← ComplexTypeDefinition.CreateFromDOM emptyComplexNode
  let _ ← Schema.addTypeDefinition e
  Schema.resolveTypeDefinitions 10
  return e

/-- Embeds `simpleType name="A"` restricting `B`. -/
def cycleNodeA : DomNode :=
  .element "simpleType" [("name", "A")] [.element "restriction" [("base", "B")] []]

/-- Embeds `simpleType name="B"` restricting `A`. -/
def cycleNodeB : DomNode :=
  .element "simpleType" [("name", "B")] [.element "restriction" [("base", "A")] []]

/-- The C3 scenario up to (but not including) the driver: bootstrap, read
and register the cyclic pair `A`/`B`. -/
def c3Setup : M Unit := do
  bootstrap
  let a ← SimpleTypeDefinition.CreateFromDOM cycleNodeA
  let _ ← Schema.addTypeDefinition a
  let b ← SimpleTypeDefinition.CreateFromDOM cycleNodeB
  let _ ← Schema.addTypeDefinition b
  return

/-- The state with the cyclic pair registered and queued, written out
explicitly (the theorem `c3Setup_reaches_c3State` ties it to `c3Setup`). -/
def c3State : State :=
  { defs := [.complex { name := (some "anyType"), targetNamespace := (some "xs"), derivationMethod := (some 2), baseTypeDefinition := (some 0), finalDM := 0, abstract := false, attributeUses := (some []), attributeWildcard := (some { namespaceConstraint := "##any", processContents := 2 }), contentType := (some (.pairModel { compositor := 3, particles := [{ term := .wildcard { namespaceConstraint := "##any", processContents := 2 }, minOccurs := 0, maxOccurs := none }] } 2)), prohibitedSubstitutions := 0, domNode := none, hasW3cXMLSchema := false },
      .simple { name := (some "anySimpleType"), targetNamespace := (some "xs"), variety := (some 1), baseTypeDefinition := (some 0), primitiveTypeDefinition := none, itemTypeDefinition := none, memberTypeDefinitions := none, domNode := none, hasW3cXMLSchema := false, isBuiltin := false, pythonSupport := (some 0) },
      .simple { name := (some "string"), targetNamespace := (some "xs"), variety := (some 2), baseTypeDefinition := (some 1), primitiveTypeDefinition := (some 2), itemTypeDefinition := none, memberTypeDefinitions := none, domNode := none, hasW3cXMLSchema := false, isBuiltin := true, pythonSupport := (some 1) },
      .simple { name := (some "A"), targetNamespace := (some "xs"), variety := none, baseTypeDefinition := none, primitiveTypeDefinition := none, itemTypeDefinition := none, memberTypeDefinitions := none, domNode := (some (.element "simpleType" [("name", "A")] [(.element "restriction" [("base", "B")] [])])), hasW3cXMLSchema := true, isBuiltin := false, pythonSupport := none },
      .simple { name := (some "B"), targetNamespace := (some "xs"), variety := none, baseTypeDefinition := none, primitiveTypeDefinition := none, itemTypeDefinition := none, memberTypeDefinitions := none, domNode := (some (.element "simpleType" [("name", "B")] [(.element "restriction" [("base", "A")] [])])), hasW3cXMLSchema := true, isBuiltin := false, pythonSupport := none }],
    psts := [{ simpleTypeDefinition := (some 1) }, { simpleTypeDefinition := (some 2) }],
    urTypeDefinition := (some 0),
    simpleUrTypeDefinition := (some 1),
    schema := { targetNamespace := (some "xs"), typeDefinitions := [("string", 2), ("A", 3), ("B", 4)], unresolvedTypeDefinitions := (some [3, 4]) } }

/-- A schema re-declaration of the built-in `string`:
`simpleType name="string"` with `restriction base="anySimpleType"`. -/
def stringRedefNode : DomNode :=
  .element "simpleType" [("name", "string")]
    [.element "restriction" [("base", "anySimpleType")] []]

/-- Embeds `simpleType name="ForwardA"` restricting `LaterB` (declared later). -/
def forwardNodeA : DomNode :=
  .element "simpleType" [("name", "ForwardA")] [.element "restriction" [("base", "LaterB")] []]

/-- Embeds `simpleType name="LaterB"` restricting the built-in `string`. -/
def laterNodeB : DomNode :=
  .element "simpleType" [("name", "LaterB")] [.element "restriction" [("base", "string")] []]

/-- The C5 scenario: `ForwardA` is read and registered before its base
`LaterB`; the driver is then run to completion. -/
def c5Run : M Nat := do
  bootstrap
  let a ← SimpleTypeDefinition.CreateFromDOM forwardNodeA
  let _ ← Schema.addTypeDefinition a
  let b ← SimpleTypeDefinition.CreateFromDOM laterNodeB
  let _ ← Schema.addTypeDefinition b
  Schema.resolveTypeDefinitions 10
  return a

/-- Embeds `simpleType name="Bare"` with no list/restriction/union child (only an
annotation-like text child). -/
def bareNode : DomNode := .element "simpleType" [("name", "Bare")] [.text "no forms here"]

/-- The C6 scenario: a simple type with none of the three child forms,
read, registered, and passed through the driver. -/
def c6Run : M Nat := do
  bootstrap
  let b ← SimpleTypeDefinition.CreateFromDOM bareNode
  let _ ← Schema.addTypeDefinition b
  Schema.resolveTypeDefinitions 10
  return b

/-! ## Observation helpers and further scenario states -/

/-- The type definition stored at a reference. -/
def defAt (s : State) (i : Nat) : Option TypeDef := s.defs.get? i

/-- The simple type definition stored at a reference, when it is one. -/
def stdAt (s : State) (i : Nat) : Option SimpleTypeDefinition :=
  match s.defs.get? i with
  | some (.simple std) => some std
  | _ => none

/-- The complex type definition stored at a reference, when it is one. -/
def ctdAt (s : State) (i : Nat) : Option ComplexTypeDefinition :=
  match s.defs.get? i with
  | some (.complex ctd) => some ctd
  | _ => none

/-- The state a computation ends in, whether it returns or raises. -/
def finalStateOf (m : M α) (s : State) : State :=
  match m s with
  | .ok _ s' => s'
  | .err _ s' => s'

/-- The final state of the C1 scenario, written out explicitly (tied to
the run by the C1 theorem). -/
def c1Final : State :=
  { defs := [.complex { name := (some "anyType"), targetNamespace := (some "xs"), derivationMethod := (some 2), baseTypeDefinition := (some 0), finalDM := 0, abstract := false, attributeUses := (some []), attributeWildcard := (some { namespaceConstraint := "##any", processContents := 2 }), contentType := (some (.pairModel { compositor := 3, particles := [{ term := .wildcard { namespaceConstraint := "##any", processContents := 2 }, minOccurs := 0, maxOccurs := none }] } 2)), prohibitedSubstitutions := 0, domNode := none, hasW3cXMLSchema := false },
      .simple { name := (some "anySimpleType"), targetNamespace := (some "xs"), variety := (some 1), baseTypeDefinition := (some 0), primitiveTypeDefinition := none, itemTypeDefinition := none, memberTypeDefinitions := none, domNode := none, hasW3cXMLSchema := false, isBuiltin := false, pythonSupport := (some 0) },
      .simple { name := (some "string"), targetNamespace := (some "xs"), variety := (some 2), baseTypeDefinition := (some 1), primitiveTypeDefinition := (some 2), itemTypeDefinition := none, memberTypeDefinitions := none, domNode := none, hasW3cXMLSchema := false, isBuiltin := true, pythonSupport := (some 1) },
      .simple { name := (some "Grade"), targetNamespace := (some "xs"), variety := (some 2), baseTypeDefinition := (some 2), primitiveTypeDefinition := (some 1), itemTypeDefinition := none, memberTypeDefinitions := none, domNode := (some (.element "simpleType" [("name", "Grade")] [(.element "restriction" [("base", "string")] [])])), hasW3cXMLSchema := true, isBuiltin := false, pythonSupport := none }],
    psts := [{ simpleTypeDefinition := (some 1) }, { simpleTypeDefinition := (some 2) }],
    urTypeDefinition := (some 0),
    simpleUrTypeDefinition := (some 1),
    schema := { targetNamespace := (some "xs"), typeDefinitions := [("string", 2), ("Grade", 3)], unresolvedTypeDefinitions := none } }

/-- The final state of the C2 scenario, written out explicitly (tied to
the run by the C2 theorem). -/
def c2Final : State :=
  { defs := [.complex { name := (some "anyType"), targetNamespace := (some "xs"), derivationMethod := (some 2), baseTypeDefinition := (some 0), finalDM := 0, abstract := false, attributeUses := (some []), attributeWildcard := (some { namespaceConstraint := "##any", processContents := 2 }), contentType := (some (.pairModel { compositor := 3, particles := [{ term := .wildcard { namespaceConstraint := "##any", processContents := 2 }, minOccurs := 0, maxOccurs := none }] } 2)), prohibitedSubstitutions := 0, domNode := none, hasW3cXMLSchema := false },
      .simple { name := (some "anySimpleType"), targetNamespace := (some "xs"), variety := (some 1), baseTypeDefinition := (some 0), primitiveTypeDefinition := none, itemTypeDefinition := none, memberTypeDefinitions := none, domNode := none, hasW3cXMLSchema := false, isBuiltin := false, pythonSupport := (some 0) },
      .simple { name := (some "string"), targetNamespace := (some "xs"), variety := (some 2), baseTypeDefinition := (some 1), primitiveTypeDefinition := (some 2), itemTypeDefinition := none, memberTypeDefinitions := none, domNode := none, hasW3cXMLSchema := false, isBuiltin := true, pythonSupport := (some 1) },
      .complex { name := (some "Empty"), targetNamespace := (some "xs"), derivationMethod := none, baseTypeDefinition := none, finalDM := 0, abstract := false, attributeUses := none, attributeWildcard := none, contentType := none, prohibitedSubstitutions := 0, domNode := (some (.element "complexType" [("name", "Empty")] [])), hasW3cXMLSchema := true }],
    psts := [{ simpleTypeDefinition := (some 1) }, { simpleTypeDefinition := (some 2) }],
    urTypeDefinition := (some 0),
    simpleUrTypeDefinition := (some 1),
    schema := { targetNamespace := (some "xs"), typeDefinitions := [("string", 2), ("Empty", 3)], unresolvedTypeDefinitions := (some []) } }

/-- The C3 state with its unresolved queue reset for a driver pass (the
snapshot held aside is `[3, 4]`, the references of `A` and `B`). -/
def c3Reset : State :=
  { c3State with schema := { c3State.schema with unresolvedTypeDefinitions := some [] } }

/-- The state after one driver pass over the cyclic pair, written out
explicitly (tied to the pass by `c3_pass_reaches_c3PassState`). -/
def c3PassState : State :=
  { defs := [.complex { name := (some "anyType"), targetNamespace := (some "xs"), derivationMethod := (some 2), baseTypeDefinition := (some 0), finalDM := 0, abstract := false, attributeUses := (some []), attributeWildcard := (some { namespaceConstraint := "##any", processContents := 2 }), contentType := (some (.pairModel { compositor := 3, particles := [{ term := .wildcard { namespaceConstraint := "##any", processContents := 2 }, minOccurs := 0, maxOccurs := none }] } 2)), prohibitedSubstitutions := 0, domNode := none, hasW3cXMLSchema := false },
      .simple { name := (some "anySimpleType"), targetNamespace := (some "xs"), variety := (some 1), baseTypeDefinition := (some 0), primitiveTypeDefinition := none, itemTypeDefinition := none, memberTypeDefinitions := none, domNode := none, hasW3cXMLSchema := false, isBuiltin := false, pythonSupport := (some 0) },
      .simple { name := (some "string"), targetNamespace := (some "xs"), variety := (some 2), baseTypeDefinition := (some 1), primitiveTypeDefinition := (some 2), itemTypeDefinition := none, memberTypeDefinitions := none, domNode := none, hasW3cXMLSchema := false, isBuiltin := true, pythonSupport := (some 1) },
      .simple { name := (some "A"), targetNamespace := (some "xs"), variety := none, baseTypeDefinition := none, primitiveTypeDefinition := none, itemTypeDefinition := none, memberTypeDefinitions := none, domNode := (some (.element "simpleType" [("name", "A")] [(.element "restriction" [("base", "B")] [])])), hasW3cXMLSchema := true, isBuiltin := false, pythonSupport := none },
      .simple { name := (some "B"), targetNamespace := (some "xs"), variety := none, baseTypeDefinition := none, primitiveTypeDefinition := none, itemTypeDefinition := none, memberTypeDefinitions := none, domNode := (some (.element "simpleType" [("name", "B")] [(.element "restriction" [("base", "A")] [])])), hasW3cXMLSchema := true, isBuiltin := false, pythonSupport := none }],
    psts := [{ simpleTypeDefinition := (some 1) }, { simpleTypeDefinition := (some 2) }],
    urTypeDefinition := (some 0),
    simpleUrTypeDefinition := (some 1),
    schema := { targetNamespace := (some "xs"), typeDefinitions := [("string", 2), ("A", 3), ("B", 4)], unresolvedTypeDefinitions := (some [3, 4]) } }

/-- The C4 scenario up to (but not including) registration: bootstrap,
then read the schema redefinition of `string` from the document (object
reference 3, queued). -/
def c4Setup : M Unit := do
  bootstrap
  let _ ← SimpleTypeDefinition.CreateFromDOM stringRedefNode
  return

/-- The state reached by `c4Setup`, written out explicitly (tied to the
setup by `c4Setup_reaches_c4Pre`). -/
def c4Pre : State :=
  { defs := [.complex { name := (some "anyType"), targetNamespace := (some "xs"), derivationMethod := (some 2), baseTypeDefinition := (some 0), finalDM := 0, abstract := false, attributeUses := (some []), attributeWildcard := (some { namespaceConstraint := "##any", processContents := 2 }), contentType := (some (.pairModel { compositor := 3, particles := [{ term := .wildcard { namespaceConstraint := "##any", processContents := 2 }, minOccurs := 0, maxOccurs := none }] } 2)), prohibitedSubstitutions := 0, domNode := none, hasW3cXMLSchema := false },
      .simple { name := (some "anySimpleType"), targetNamespace := (some "xs"), variety := (some 1), baseTypeDefinition := (some 0), primitiveTypeDefinition := none, itemTypeDefinition := none, memberTypeDefinitions := none, domNode := none, hasW3cXMLSchema := false, isBuiltin := false, pythonSupport := (some 0) },
      .simple { name := (some "string"), targetNamespace := (some "xs"), variety := (some 2), baseTypeDefinition := (some 1), primitiveTypeDefinition := (some 2), itemTypeDefinition := none, memberTypeDefinitions := none, domNode := none, hasW3cXMLSchema := false, isBuiltin := true, pythonSupport := (some 1) },
      .simple { name := (some "string"), targetNamespace := (some "xs"), variety := none, baseTypeDefinition := none, primitiveTypeDefinition := none, itemTypeDefinition := none, memberTypeDefinitions := none, domNode := (some (.element "simpleType" [("name", "string")] [(.element "restriction" [("base", "anySimpleType")] [])])), hasW3cXMLSchema := true, isBuiltin := false, pythonSupport := none }],
    psts := [{ simpleTypeDefinition := (some 1) }, { simpleTypeDefinition := (some 2) }],
    urTypeDefinition := (some 0),
    simpleUrTypeDefinition := (some 1),
    schema := { targetNamespace := (some "xs"), typeDefinitions := [("string", 2)], unresolvedTypeDefinitions := (some [3]) } }

/-- The built-in `string` definition as it stands in `c4Pre` (object
reference 2): atomic, based on the simple ur-type, its own primitive,
built-in, bound to codec 1. -/
def c4OldStd : SimpleTypeDefinition :=
  { name := some "string", targetNamespace := some "xs", variety := some VARIETY_atomic,
    baseTypeDefinition := some 1, primitiveTypeDefinition := some 2,
    isBuiltin := true, pythonSupport := some 1 }

/-- The schema-defined redefinition of `string` as read from the document
in `c4Pre` (object reference 3): unresolved, holding the document node. -/
def c4NewStd : SimpleTypeDefinition :=
  { name := some "string", targetNamespace := some "xs", variety := none,
    domNode := some stringRedefNode, hasW3cXMLSchema := true }

/-- The C5 scenario before the driver: `ForwardA` (reference 3) and
`LaterB` (reference 4) read and registered, queue `[3, 4]`. -/
def c5Setup : M Unit := do
  bootstrap
  let a ← SimpleTypeDefinition.CreateFromDOM forwardNodeA
  let _ ← Schema.addTypeDefinition a
  let b ← SimpleTypeDefinition.CreateFromDOM laterNodeB
  let _ ← Schema.addTypeDefinition b
  return

/-- The state reached by `c5Setup`, written out explicitly (tied to the
setup by `c5Setup_reaches_c5State`). -/
def c5State : State :=
  { defs := [.complex { name := (some "anyType"), targetNamespace := (some "xs"), derivationMethod := (some 2), baseTypeDefinition := (some 0), finalDM := 0, abstract := false, attributeUses := (some []), attributeWildcard := (some { namespaceConstraint := "##any", processContents := 2 }), contentType := (some (.pairModel { compositor := 3, particles := [{ term := .wildcard { namespaceConstraint := "##any", processContents := 2 }, minOccurs := 0, maxOccurs := none }] } 2)), prohibitedSubstitutions := 0, domNode := none, hasW3cXMLSchema := false },
      .simple { name := (some "anySimpleType"), targetNamespace := (some "xs"), variety := (some 1), baseTypeDefinition := (some 0), primitiveTypeDefinition := none, itemTypeDefinition := none, memberTypeDefinitions := none, domNode := none, hasW3cXMLSchema := false, isBuiltin := false, pythonSupport := (some 0) },
      .simple { name := (some "string"), targetNamespace := (some "xs"), variety := (some 2), baseTypeDefinition := (some 1), primitiveTypeDefinition := (some 2), itemTypeDefinition := none, memberTypeDefinitions := none, domNode := none, hasW3cXMLSchema := false, isBuiltin := true, pythonSupport := (some 1) },
      .simple { name := (some "ForwardA"), targetNamespace := (some "xs"), variety := none, baseTypeDefinition := none, primitiveTypeDefinition := none, itemTypeDefinition := none, memberTypeDefinitions := none, domNode := (some (.element "simpleType" [("name", "ForwardA")] [(.element "restriction" [("base", "LaterB")] [])])), hasW3cXMLSchema := true, isBuiltin := false, pythonSupport := none },
      .simple { name := (some "LaterB"), targetNamespace := (some "xs"), variety := none, baseTypeDefinition := none, primitiveTypeDefinition := none, itemTypeDefinition := none, memberTypeDefinitions := none, domNode := (some (.element "simpleType" [("name", "LaterB")] [(.element "restriction" [("base", "string")] [])])), hasW3cXMLSchema := true, isBuiltin := false, pythonSupport := none }],
    psts := [{ simpleTypeDefinition := (some 1) }, { simpleTypeDefinition := (some 2) }],
    urTypeDefinition := (some 0),
    simpleUrTypeDefinition := (some 1),
    schema := { targetNamespace := (some "xs"), typeDefinitions := [("string", 2), ("ForwardA", 3), ("LaterB", 4)], unresolvedTypeDefinitions := (some [3, 4]) } }

/-- The final state of the C5 scenario, written out explicitly (tied to
the run by the C5 theorem). -/
def c5Final : State :=
  { defs := [.complex { name := (some "anyType"), targetNamespace := (some "xs"), derivationMethod := (some 2), baseTypeDefinition := (some 0), finalDM := 0, abstract := false, attributeUses := (some []), attributeWildcard := (some { namespaceConstraint := "##any", processContents := 2 }), contentType := (some (.pairModel { compositor := 3, particles := [{ term := .wildcard { namespaceConstraint := "##any", processContents := 2 }, minOccurs := 0, maxOccurs := none }] } 2)), prohibitedSubstitutions := 0, domNode := none, hasW3cXMLSchema := false },
      .simple { name := (some "anySimpleType"), targetNamespace := (some "xs"), variety := (some 1), baseTypeDefinition := (some 0), primitiveTypeDefinition := none, itemTypeDefinition := none, memberTypeDefinitions := none, domNode := none, hasW3cXMLSchema := false, isBuiltin := false, pythonSupport := (some 0) },
      .simple { name := (some "string"), targetNamespace := (some "xs"), variety := (some 2), baseTypeDefinition := (some 1), primitiveTypeDefinition := (some 2), itemTypeDefinition := none, memberTypeDefinitions := none, domNode := none, hasW3cXMLSchema := false, isBuiltin := true, pythonSupport := (some 1) },
      .simple { name := (some "ForwardA"), targetNamespace := (some "xs"), variety := (some 2), baseTypeDefinition := (some 4), primitiveTypeDefinition := (some 1), itemTypeDefinition := none, memberTypeDefinitions := none, domNode := (some (.element "simpleType" [("name", "ForwardA")] [(.element "restriction" [("base", "LaterB")] [])])), hasW3cXMLSchema := true, isBuiltin := false, pythonSupport := none },
      .simple { name := (some "LaterB"), targetNamespace := (some "xs"), variety := (some 2), baseTypeDefinition := (some 2), primitiveTypeDefinition := (some 1), itemTypeDefinition := none, memberTypeDefinitions := none, domNode := (some (.element "simpleType" [("name", "LaterB")] [(.element "restriction" [("base", "string")] [])])), hasW3cXMLSchema := true, isBuiltin := false, pythonSupport := none }],
    psts := [{ simpleTypeDefinition := (some 1) }, { simpleTypeDefinition := (some 2) }],
    urTypeDefinition := (some 0),
    simpleUrTypeDefinition := (some 1),
    schema := { targetNamespace := (some "xs"), typeDefinitions := [("string", 2), ("ForwardA", 3), ("LaterB", 4)], unresolvedTypeDefinitions := none } }

/-- The C6 scenario before the driver: `Bare` (reference 3) read and
registered. -/
def c6Setup : M Unit := do
  bootstrap
  let b ← SimpleTypeDefinition.CreateFromDOM bareNode
  let _ ← Schema.addTypeDefinition b
  return

/-- The state reached by `c6Setup`, written out explicitly (tied to the
setup by `c6Setup_reaches_c6State`). -/
def c6State : State :=
  { defs := [.complex { name := (some "anyType"), targetNamespace := (some "xs"), derivationMethod := (some 2), baseTypeDefinition := (some 0), finalDM := 0, abstract := false, attributeUses := (some []), attributeWildcard := (some { namespaceConstraint := "##any", processContents := 2 }), contentType := (some (.pairModel { compositor := 3, particles := [{ term := .wildcard { namespaceConstraint := "##any", processContents := 2 }, minOccurs := 0, maxOccurs := none }] } 2)), prohibitedSubstitutions := 0, domNode := none, hasW3cXMLSchema := false },
      .simple { name := (some "anySimpleType"), targetNamespace := (some "xs"), variety := (some 1), baseTypeDefinition := (some 0), primitiveTypeDefinition := none, itemTypeDefinition := none, memberTypeDefinitions := none, domNode := none, hasW3cXMLSchema := false, isBuiltin := false, pythonSupport := (some 0) },
      .simple { name := (some "string"), targetNamespace := (some "xs"), variety := (some 2), baseTypeDefinition := (some 1), primitiveTypeDefinition := (some 2), itemTypeDefinition := none, memberTypeDefinitions := none, domNode := none, hasW3cXMLSchema := false, isBuiltin := true, pythonSupport := (some 1) },
      .simple { name := (some "Bare"), targetNamespace := (some "xs"), variety := none, baseTypeDefinition := none, primitiveTypeDefinition := none, itemTypeDefinition := none, memberTypeDefinitions := none, domNode := (some (.element "simpleType" [("name", "Bare")] [(.text "no forms here")])), hasW3cXMLSchema := true, isBuiltin := false, pythonSupport := none }],
    psts := [{ simpleTypeDefinition := (some 1) }, { simpleTypeDefinition := (some 2) }],
    urTypeDefinition := (some 0),
    simpleUrTypeDefinition := (some 1),
    schema := { targetNamespace := (some "xs"), typeDefinitions := [("string", 2), ("Bare", 3)], unresolvedTypeDefinitions := (some [3]) } }

/-- The final state of the C6 scenario, written out explicitly (tied to
the run by the C6 counterexample theorem). -/
def c6Final : State :=
  { defs := [.complex { name := (some "anyType"), targetNamespace := (some "xs"), derivationMethod := (some 2), baseTypeDefinition := (some 0), finalDM := 0, abstract := false, attributeUses := (some []), attributeWildcard := (some { namespaceConstraint := "##any", processContents := 2 }), contentType := (some (.pairModel { compositor := 3, particles := [{ term := .wildcard { namespaceConstraint := "##any", processContents := 2 }, minOccurs := 0, maxOccurs := none }] } 2)), prohibitedSubstitutions := 0, domNode := none, hasW3cXMLSchema := false },
      .simple { name := (some "anySimpleType"), targetNamespace := (some "xs"), variety := (some 1), baseTypeDefinition := (some 0), primitiveTypeDefinition := none, itemTypeDefinition := none, memberTypeDefinitions := none, domNode := none, hasW3cXMLSchema := false, isBuiltin := false, pythonSupport := (some 0) },
      .simple { name := (some "string"), targetNamespace := (some "xs"), variety := (some 2), baseTypeDefinition := (some 1), primitiveTypeDefinition := (some 2), itemTypeDefinition := none, memberTypeDefinitions := none, domNode := none, hasW3cXMLSchema := false, isBuiltin := true, pythonSupport := (some 1) },
      .simple { name := (some "Bare"), targetNamespace := (some "xs"), variety := none, baseTypeDefinition := none, primitiveTypeDefinition := none, itemTypeDefinition := none, memberTypeDefinitions := none, domNode := (some (.element "simpleType" [("name", "Bare")] [(.text "no forms here")])), hasW3cXMLSchema := true, isBuiltin := false, pythonSupport := none }],
    psts := [{ simpleTypeDefinition := (some 1) }, { simpleTypeDefinition := (some 2) }],
    urTypeDefinition := (some 0),
    simpleUrTypeDefinition := (some 1),
    schema := { targetNamespace := (some "xs"), typeDefinitions := [("string", 2), ("Bare", 3)], unresolvedTypeDefinitions := none } }

/-- The C9 scenario: after the bootstrap, allocate a second, fresh codec
(reference 2) and bind it to the built-in `string` (reference 2), which
already has codec 1 bound. -/
def c9Run : M Nat := do
  bootstrap
  let c2 ← newPSTS
  SimpleTypeDefinition.setPythonSupport 2 c2

/-- The final state of the C9 scenario, written out explicitly (tied to
the run by the C9 counterexample theorem). -/
def c9Final : State :=
  { defs := [.complex { name := (some "anyType"), targetNamespace := (some "xs"), derivationMethod := (some 2), baseTypeDefinition := (some 0), finalDM := 0, abstract := false, attributeUses := (some []), attributeWildcard := (some { namespaceConstraint := "##any", processContents := 2 }), contentType := (some (.pairModel { compositor := 3, particles := [{ term := .wildcard { namespaceConstraint := "##any", processContents := 2 }, minOccurs := 0, maxOccurs := none }] } 2)), prohibitedSubstitutions := 0, domNode := none, hasW3cXMLSchema := false },
      .simple { name := (some "anySimpleType"), targetNamespace := (some "xs"), variety := (some 1), baseTypeDefinition := (some 0), primitiveTypeDefinition := none, itemTypeDefinition := none, memberTypeDefinitions := none, domNode := none, hasW3cXMLSchema := false, isBuiltin := false, pythonSupport := (some 0) },
      .simple { name := (some "string"), targetNamespace := (some "xs"), variety := (some 2), baseTypeDefinition := (some 1), primitiveTypeDefinition := (some 2), itemTypeDefinition := none, memberTypeDefinitions := none, domNode := none, hasW3cXMLSchema := false, isBuiltin := true, pythonSupport := (some 2) }],
    psts := [{ simpleTypeDefinition := (some 1) }, { simpleTypeDefinition := (some 2) }, { simpleTypeDefinition := (some 2) }],
    urTypeDefinition := (some 0),
    simpleUrTypeDefinition := (some 1),
    schema := { targetNamespace := (some "xs"), typeDefinitions := [("string", 2)], unresolvedTypeDefinitions := (some []) } }

/-- A `simpleType` document node carrying a `final` attribute. -/
def finalAttrNode : DomNode :=
  .element "simpleType" [("name", "F"), ("final", "restriction")] []

/-- The `Bare` definition as it stands unresolved in `c6State` (object
reference 3). -/
def c6BareStd : SimpleTypeDefinition :=
  { name := some "Bare", targetNamespace := some "xs", variety := none,
    domNode := some bareNode, hasW3cXMLSchema := true }

/-- The `restriction` child node of `forwardNodeA`. -/
def c5RestrictionBody : DomNode := .element "restriction" [("base", "LaterB")] []

/-!
# Theorems

First the proof-engineering helpers (do-notation unfolding and a handful
of facts about the document-query loops), then one theorem per claim.
-/

/-- Do-notation bind on `M` unfolds to `M.bind`. -/
theorem bind_def (x : M α) (f : α → M β) : (x >>= f) = M.bind x f := rfl

/-- Do-notation pure on `M` unfolds to `M.pure`. -/
theorem pure_def (a : α) : (pure a : M α) = M.pure a := rfl

/-- When no child node carries the sought name, the `LocateUniqueChild`
scanning loop returns no candidate and leaves the state unchanged. -/
theorem locateUniqueChildLoop_none (name parent : String) (cs : List DomNode)
    (h : ∀ c ∈ cs, c.nodeName ≠ name) (s : State) :
    locateUniqueChildLoop name parent cs none s = .ok none s := by
  induction cs with
  | nil => rfl
  | cons c rest ih =>
      have hc : ¬ (c.nodeName = name) := h c (by simp)
      have hr : ∀ x ∈ rest, x.nodeName ≠ name := fun x hx => h x (by simp [hx])
      simp [locateUniqueChildLoop, hc, ih hr]

/-- When no child node carries the sought (qualified) tag,
`LocateUniqueChild` in absent-ok mode returns no candidate and leaves the
state unchanged. -/
theorem LocateUniqueChild_none (node : DomNode) (tag : String) (s : State)
    (h : ∀ c ∈ node.childNodes, c.nodeName ≠ xsQualifiedName tag) :
    LocateUniqueChild node tag true s = .ok none s := by
  simp [LocateUniqueChild, bind_def, M.bind, pure_def, M.pure,
        locateUniqueChildLoop_none (xsQualifiedName tag) node.nodeName node.childNodes h s]


/-! ### Linking theorems: the explicit scenario states are the states the
pipeline actually reaches -/

/-- Running the built-in bootstrap from the initial state succeeds and
produces exactly `bootState`. -/
theorem bootstrap_reaches_bootState : bootstrap initialState = .ok () bootState := by
    simp [bootState, bootstrap, initialState,
      ComplexTypeDefinition.UrTypeDefinition, SimpleTypeDefinition.SimpleUrTypeDefinition,
      SimpleTypeDefinition.CreatePrimitiveInstance, SimpleTypeDefinition.setPythonSupport,
      PSTSObj.setSimpleTypeDefinition, newPSTS, allocDef, getDef, getSTD, getCTD, getPSTS,
      modifySTD, modifyCTD, modifyPSTS, Schema.addTypeDefinition, Schema.addUnresolvedTypeDefinition,
      Schema.getTargetNamespace, Schema.lookupType, Schema.lookupSimpleType, Schema.lookupTypeDefinition,
      dictGet, dictSet, SimpleTypeDefinition.CreateFromDOM, ComplexTypeDefinition.CreateFromDOM,
      Schema.resolveTypeDefinitions, Schema.resolveTypeDefinitionsLoop, Schema.resolvePass,
      Schema.resolveOne, SimpleTypeDefinition.resolve, SimpleTypeDefinition.initializeFromList,
      SimpleTypeDefinition.initializeFromRestriction, SimpleTypeDefinition.initializeFromUnion,
      SimpleTypeDefinition.completeResolution, primitiveWalk, collectUnionMembers,
      SimpleTypeDefinition.singleSimpleTypeChild, singleSimpleTypeChildLoop,
      SimpleTypeDefinition.setFromInstance, ComplexTypeDefinition.setFromInstance,
      TypeDef.setFromInstance, ComplexTypeDefinition.resolve,
      ComplexTypeDefinition.completeComplexResolution, ComplexTypeDefinition.completeSimpleResolution,
      booleanStringToPython, LocateUniqueChild, locateUniqueChildLoop,
      LocateFirstChildElement, locateFirstChildElementLoop,
      bind_def, M.bind, pure_def, M.pure, M.get, M.set, M.modify, M.throw,
      DomNode.nodeName, DomNode.childNodes, DomNode.hasAttribute, DomNode.getAttribute,
      DomNode.findAttr, DomNode.isElement, xsQualifiedName, XNamespace.qualifiedName, Particle.init,
      TypeDef.isResolved, TypeDef.localName, TypeDef.isComplex, TypeDef.nameQ,
      TypeDef.targetNamespace, namesOf, List.lookup, DM_empty, DM_extension, DM_restriction, CT_EMPTY, CT_SIMPLE, CT_MIXED,
      CT_ELEMENT_ONLY, VARIETY_absent, VARIETY_atomic, VARIETY_list, VARIETY_union,
      C_SEQUENCE, C_ALL, C_CHOICE, NC_any, PC_skip, PC_lax, PC_strict]

/-- Reading and registering the cyclic pair produces exactly `c3State`. -/
theorem c3Setup_reaches_c3State : c3Setup initialState = .ok () c3State := by
    simp [c3Setup, c3State, cycleNodeA, cycleNodeB, bootstrap, initialState,
      ComplexTypeDefinition.UrTypeDefinition, SimpleTypeDefinition.SimpleUrTypeDefinition,
      SimpleTypeDefinition.CreatePrimitiveInstance, SimpleTypeDefinition.setPythonSupport,
      PSTSObj.setSimpleTypeDefinition, newPSTS, allocDef, getDef, getSTD, getCTD, getPSTS,
      modifySTD, modifyCTD, modifyPSTS, Schema.addTypeDefinition, Schema.addUnresolvedTypeDefinition,
      Schema.getTargetNamespace, Schema.lookupType, Schema.lookupSimpleType, Schema.lookupTypeDefinition,
      dictGet, dictSet, SimpleTypeDefinition.CreateFromDOM, ComplexTypeDefinition.CreateFromDOM,
      Schema.resolveTypeDefinitions, Schema.resolveTypeDefinitionsLoop, Schema.resolvePass,
      Schema.resolveOne, SimpleTypeDefinition.resolve, SimpleTypeDefinition.initializeFromList,
      SimpleTypeDefinition.initializeFromRestriction, SimpleTypeDefinition.initializeFromUnion,
      SimpleTypeDefinition.completeResolution, primitiveWalk, collectUnionMembers,
      SimpleTypeDefinition.singleSimpleTypeChild, singleSimpleTypeChildLoop,
      SimpleTypeDefinition.setFromInstance, ComplexTypeDefinition.setFromInstance,
      TypeDef.setFromInstance, ComplexTypeDefinition.resolve,
      ComplexTypeDefinition.completeComplexResolution, ComplexTypeDefinition.completeSimpleResolution,
      booleanStringToPython, LocateUniqueChild, locateUniqueChildLoop,
      LocateFirstChildElement, locateFirstChildElementLoop,
      bind_def, M.bind, pure_def, M.pure, M.get, M.set, M.modify, M.throw,
      DomNode.nodeName, DomNode.childNodes, DomNode.hasAttribute, DomNode.getAttribute,
      DomNode.findAttr, DomNode.isElement, xsQualifiedName, XNamespace.qualifiedName, Particle.init,
      TypeDef.isResolved, TypeDef.localName, TypeDef.isComplex, TypeDef.nameQ,
      TypeDef.targetNamespace, namesOf, List.lookup, DM_empty, DM_extension, DM_restriction, CT_EMPTY, CT_SIMPLE, CT_MIXED,
      CT_ELEMENT_ONLY, VARIETY_absent, VARIETY_atomic, VARIETY_list, VARIETY_union,
      C_SEQUENCE, C_ALL, C_CHOICE, NC_any, PC_skip, PC_lax, PC_strict]

/-- One driver pass over the cyclic pair defers both members and produces
exactly `c3PassState` (whose queue again reads `[3, 4]`). -/
theorem c3_pass_reaches_c3PassState :
    Schema.resolvePass [3, 4] c3Reset = .ok () c3PassState := by
    simp [c3Reset, c3State, c3PassState, cycleNodeA, cycleNodeB, bootstrap, initialState,
      ComplexTypeDefinition.UrTypeDefinition, SimpleTypeDefinition.SimpleUrTypeDefinition,
      SimpleTypeDefinition.CreatePrimitiveInstance, SimpleTypeDefinition.setPythonSupport,
      PSTSObj.setSimpleTypeDefinition, newPSTS, allocDef, getDef, getSTD, getCTD, getPSTS,
      modifySTD, modifyCTD, modifyPSTS, Schema.addTypeDefinition, Schema.addUnresolvedTypeDefinition,
      Schema.getTargetNamespace, Schema.lookupType, Schema.lookupSimpleType, Schema.lookupTypeDefinition,
      dictGet, dictSet, SimpleTypeDefinition.CreateFromDOM, ComplexTypeDefinition.CreateFromDOM,
      Schema.resolveTypeDefinitions, Schema.resolveTypeDefinitionsLoop, Schema.resolvePass,
      Schema.resolveOne, SimpleTypeDefinition.resolve, SimpleTypeDefinition.initializeFromList,
      SimpleTypeDefinition.initializeFromRestriction, SimpleTypeDefinition.initializeFromUnion,
      SimpleTypeDefinition.completeResolution, primitiveWalk, collectUnionMembers,
      SimpleTypeDefinition.singleSimpleTypeChild, singleSimpleTypeChildLoop,
      SimpleTypeDefinition.setFromInstance, ComplexTypeDefinition.setFromInstance,
      TypeDef.setFromInstance, ComplexTypeDefinition.resolve,
      ComplexTypeDefinition.completeComplexResolution, ComplexTypeDefinition.completeSimpleResolution,
      booleanStringToPython, LocateUniqueChild, locateUniqueChildLoop,
      LocateFirstChildElement, locateFirstChildElementLoop,
      bind_def, M.bind, pure_def, M.pure, M.get, M.set, M.modify, M.throw,
      DomNode.nodeName, DomNode.childNodes, DomNode.hasAttribute, DomNode.getAttribute,
      DomNode.findAttr, DomNode.isElement, xsQualifiedName, XNamespace.qualifiedName, Particle.init,
      TypeDef.isResolved, TypeDef.localName, TypeDef.isComplex, TypeDef.nameQ,
      TypeDef.targetNamespace, namesOf, List.lookup, DM_empty, DM_extension, DM_restriction, CT_EMPTY, CT_SIMPLE, CT_MIXED,
      CT_ELEMENT_ONLY, VARIETY_absent, VARIETY_atomic, VARIETY_list, VARIETY_union,
      C_SEQUENCE, C_ALL, C_CHOICE, NC_any, PC_skip, PC_lax, PC_strict]

/-- The C4 setup produces exactly `c4Pre`. -/
theorem c4Setup_reaches_c4Pre : c4Setup initialState = .ok () c4Pre := by
    simp [c4Setup, c4Pre, stringRedefNode, bootstrap, initialState,
      ComplexTypeDefinition.UrTypeDefinition, SimpleTypeDefinition.SimpleUrTypeDefinition,
      SimpleTypeDefinition.CreatePrimitiveInstance, SimpleTypeDefinition.setPythonSupport,
      PSTSObj.setSimpleTypeDefinition, newPSTS, allocDef, getDef, getSTD, getCTD, getPSTS,
      modifySTD, modifyCTD, modifyPSTS, Schema.addTypeDefinition, Schema.addUnresolvedTypeDefinition,
      Schema.getTargetNamespace, Schema.lookupType, Schema.lookupSimpleType, Schema.lookupTypeDefinition,
      dictGet, dictSet, SimpleTypeDefinition.CreateFromDOM, ComplexTypeDefinition.CreateFromDOM,
      Schema.resolveTypeDefinitions, Schema.resolveTypeDefinitionsLoop, Schema.resolvePass,
      Schema.resolveOne, SimpleTypeDefinition.resolve, SimpleTypeDefinition.initializeFromList,
      SimpleTypeDefinition.initializeFromRestriction, SimpleTypeDefinition.initializeFromUnion,
      SimpleTypeDefinition.completeResolution, primitiveWalk, collectUnionMembers,
      SimpleTypeDefinition.singleSimpleTypeChild, singleSimpleTypeChildLoop,
      SimpleTypeDefinition.setFromInstance, ComplexTypeDefinition.setFromInstance,
      TypeDef.setFromInstance, ComplexTypeDefinition.resolve,
      ComplexTypeDefinition.completeComplexResolution, ComplexTypeDefinition.completeSimpleResolution,
      booleanStringToPython, LocateUniqueChild, locateUniqueChildLoop,
      LocateFirstChildElement, locateFirstChildElementLoop,
      bind_def, M.bind, pure_def, M.pure, M.get, M.set, M.modify, M.throw,
      DomNode.nodeName, DomNode.childNodes, DomNode.hasAttribute, DomNode.getAttribute,
      DomNode.findAttr, DomNode.isElement, xsQualifiedName, XNamespace.qualifiedName, Particle.init,
      TypeDef.isResolved, TypeDef.localName, TypeDef.isComplex, TypeDef.nameQ,
      TypeDef.targetNamespace, namesOf, List.lookup, DM_empty, DM_extension, DM_restriction, CT_EMPTY, CT_SIMPLE, CT_MIXED,
      CT_ELEMENT_ONLY, VARIETY_absent, VARIETY_atomic, VARIETY_list, VARIETY_union,
      C_SEQUENCE, C_ALL, C_CHOICE, NC_any, PC_skip, PC_lax, PC_strict]

/-- The C5 setup produces exactly `c5State`. -/
theorem c5Setup_reaches_c5State : c5Setup initialState = .ok () c5State := by
    simp [c5Setup, c5State, forwardNodeA, laterNodeB, bootstrap, initialState,
      ComplexTypeDefinition.UrTypeDefinition, SimpleTypeDefinition.SimpleUrTypeDefinition,
      SimpleTypeDefinition.CreatePrimitiveInstance, SimpleTypeDefinition.setPythonSupport,
      PSTSObj.setSimpleTypeDefinition, newPSTS, allocDef, getDef, getSTD, getCTD, getPSTS,
      modifySTD, modifyCTD, modifyPSTS, Schema.addTypeDefinition, Schema.addUnresolvedTypeDefinition,
      Schema.getTargetNamespace, Schema.lookupType, Schema.lookupSimpleType, Schema.lookupTypeDefinition,
      dictGet, dictSet, SimpleTypeDefinition.CreateFromDOM, ComplexTypeDefinition.CreateFromDOM,
      Schema.resolveTypeDefinitions, Schema.resolveTypeDefinitionsLoop, Schema.resolvePass,
      Schema.resolveOne, SimpleTypeDefinition.resolve, SimpleTypeDefinition.initializeFromList,
      SimpleTypeDefinition.initializeFromRestriction, SimpleTypeDefinition.initializeFromUnion,
      SimpleTypeDefinition.completeResolution, primitiveWalk, collectUnionMembers,
      SimpleTypeDefinition.singleSimpleTypeChild, singleSimpleTypeChildLoop,
      SimpleTypeDefinition.setFromInstance, ComplexTypeDefinition.setFromInstance,
      TypeDef.setFromInstance, ComplexTypeDefinition.resolve,
      ComplexTypeDefinition.completeComplexResolution, ComplexTypeDefinition.completeSimpleResolution,
      booleanStringToPython, LocateUniqueChild, locateUniqueChildLoop,
      LocateFirstChildElement, locateFirstChildElementLoop,
      bind_def, M.bind, pure_def, M.pure, M.get, M.set, M.modify, M.throw,
      DomNode.nodeName, DomNode.childNodes, DomNode.hasAttribute, DomNode.getAttribute,
      DomNode.findAttr, DomNode.isElement, xsQualifiedName, XNamespace.qualifiedName, Particle.init,
      TypeDef.isResolved, TypeDef.localName, TypeDef.isComplex, TypeDef.nameQ,
      TypeDef.targetNamespace, namesOf, List.lookup, DM_empty, DM_extension, DM_restriction, CT_EMPTY, CT_SIMPLE, CT_MIXED,
      CT_ELEMENT_ONLY, VARIETY_absent, VARIETY_atomic, VARIETY_list, VARIETY_union,
      C_SEQUENCE, C_ALL, C_CHOICE, NC_any, PC_skip, PC_lax, PC_strict]

/-- The C6 setup produces exactly `c6State`. -/
theorem c6Setup_reaches_c6State : c6Setup initialState = .ok () c6State := by
    simp [c6Setup, c6State, bareNode, bootstrap, initialState,
      ComplexTypeDefinition.UrTypeDefinition, SimpleTypeDefinition.SimpleUrTypeDefinition,
      SimpleTypeDefinition.CreatePrimitiveInstance, SimpleTypeDefinition.setPythonSupport,
      PSTSObj.setSimpleTypeDefinition, newPSTS, allocDef, getDef, getSTD, getCTD, getPSTS,
      modifySTD, modifyCTD, modifyPSTS, Schema.addTypeDefinition, Schema.addUnresolvedTypeDefinition,
      Schema.getTargetNamespace, Schema.lookupType, Schema.lookupSimpleType, Schema.lookupTypeDefinition,
      dictGet, dictSet, SimpleTypeDefinition.CreateFromDOM, ComplexTypeDefinition.CreateFromDOM,
      Schema.resolveTypeDefinitions, Schema.resolveTypeDefinitionsLoop, Schema.resolvePass,
      Schema.resolveOne, SimpleTypeDefinition.resolve, SimpleTypeDefinition.initializeFromList,
      SimpleTypeDefinition.initializeFromRestriction, SimpleTypeDefinition.initializeFromUnion,
      SimpleTypeDefinition.completeResolution, primitiveWalk, collectUnionMembers,
      SimpleTypeDefinition.singleSimpleTypeChild, singleSimpleTypeChildLoop,
      SimpleTypeDefinition.setFromInstance, ComplexTypeDefinition.setFromInstance,
      TypeDef.setFromInstance, ComplexTypeDefinition.resolve,
      ComplexTypeDefinition.completeComplexResolution, ComplexTypeDefinition.completeSimpleResolution,
      booleanStringToPython, LocateUniqueChild, locateUniqueChildLoop,
      LocateFirstChildElement, locateFirstChildElementLoop,
      bind_def, M.bind, pure_def, M.pure, M.get, M.set, M.modify, M.throw,
      DomNode.nodeName, DomNode.childNodes, DomNode.hasAttribute, DomNode.getAttribute,
      DomNode.findAttr, DomNode.isElement, xsQualifiedName, XNamespace.qualifiedName, Particle.init,
      TypeDef.isResolved, TypeDef.localName, TypeDef.isComplex, TypeDef.nameQ,
      TypeDef.targetNamespace, namesOf, List.lookup, DM_empty, DM_extension, DM_restriction, CT_EMPTY, CT_SIMPLE, CT_MIXED,
      CT_ELEMENT_ONLY, VARIETY_absent, VARIETY_atomic, VARIETY_list, VARIETY_union,
      C_SEQUENCE, C_ALL, C_CHOICE, NC_any, PC_skip, PC_lax, PC_strict]


/-- C7: for every type definition (simple or complex) that is already
resolved, invoking `_resolve` again is a no-op: the call returns
immediately and the entire process state — in particular every observable
field of the component — is identical before and after the second call. -/
theorem C7_resolve_idempotent_on_resolved (s : State) (i : Nat) (d : TypeDef)
    (hget : s.defs.get? i = some d) (hres : d.isResolved = true) :
    Schema.resolveOne i s = .ok () s := by
  rw [List.get?_eq_getElem?] at hget
  cases d with
  | simple std =>
      have hv : std.variety.isSome = true := hres
      simp [Schema.resolveOne, SimpleTypeDefinition.resolve, getDef, getSTD,
            bind_def, M.bind, pure_def, M.pure, hget, hv]
  | complex ctd =>
      have hv : ctd.derivationMethod.isSome = true := hres
      simp [Schema.resolveOne, ComplexTypeDefinition.resolve, getDef, getCTD,
            bind_def, M.bind, pure_def, M.pure, hget, hv]

/-- C7 witness: the resolved built-in `string` (reference 2) in the
bootstrap state; resolving it again returns with the state untouched. -/
theorem C7_witness : Schema.resolveOne 2 bootState = .ok () bootState :=
  C7_resolve_idempotent_on_resolved bootState 2 (.simple c4OldStd) (by rfl) (by rfl)

/-- C10: for every `simpleType` document node carrying a `final`
attribute, `SimpleTypeDefinition.CreateFromDOM` raises the
unimplemented-capability exception with the state unchanged — in
particular the registry and the unresolved queue are exactly as before,
and no definition was constructed or queued. -/
theorem C10_final_attribute_raises_before_construction (s : State) (node : DomNode)
    (hname : node.nodeName = xsQualifiedName "simpleType")
    (hfinal : node.hasAttribute "final" = true) :
    SimpleTypeDefinition.CreateFromDOM node s =
      .err (.incompleteImplementationException "\"final\" attribute not currently supported") s := by
  simp [SimpleTypeDefinition.CreateFromDOM, bind_def, M.bind, M.throw,
        pure_def, M.pure, hname, hfinal]

/-- C10 witness: a concrete `simpleType` node with
`final="restriction"`, submitted in the bootstrap state. -/
theorem C10_witness :
    SimpleTypeDefinition.CreateFromDOM finalAttrNode bootState =
      .err (.incompleteImplementationException "\"final\" attribute not currently supported")
        bootState :=
  C10_final_attribute_raises_before_construction bootState finalAttrNode rfl rfl

/-- C9 counterexample: the claim says a second codec binding on a simple
type definition that already has one unconditionally raises; but binding a
second, fresh codec instance (reference 2) to the built-in `string`
(reference 2, already bound to codec 1) succeeds and silently replaces the
first binding. -/
theorem C9_counterexample_fresh_codec_replaces_silently :
    c9Run initialState = .ok 2 c9Final ∧
    (stdAt bootState 2).map (fun std => std.pythonSupport) = some (some 1) ∧
    (stdAt c9Final 2).map (fun std => std.pythonSupport) = some (some 2) :=
  ⟨by rfl, by rfl, by rfl⟩

/-- C9 (amended): the single-assignment check lives on the codec object,
not on the definition: binding a codec instance that is already bound to
some definition raises the `LogicError` unconditionally (though the
forward reference on the definition has already been reassigned by then, as in
the source), while a fresh codec instance replaces an earlier binding
silently (see the counterexample). -/
theorem C9_amended_rebinding_same_codec_raises
    (s : State) (i p : Nat) (std : SimpleTypeDefinition) (o : PSTSObj) (r : Nat)
    (hstd : s.defs.get? i = some (.simple std))
    (hp : s.psts.get? p = some o)
    (hbound : o.simpleTypeDefinition = some r) :
    SimpleTypeDefinition.setPythonSupport i p s =
      .err (.logicError "Multiple assignments of SimpleTypeDefinition to PythonSTSupport")
        { s with defs := s.defs.set i (.simple { std with pythonSupport := some p }) } := by
  rw [List.get?_eq_getElem?] at hstd hp
  simp [SimpleTypeDefinition.setPythonSupport, modifySTD, getSTD, getPSTS,
        PSTSObj.setSimpleTypeDefinition, bind_def, M.bind, M.modify, M.throw,
        pure_def, M.pure, hstd, hp, hbound]

/-- C9 witness: rebinding codec 1 (already bound to `string`) to `string`
in the bootstrap state raises the `LogicError`. -/
theorem C9_witness :
    SimpleTypeDefinition.setPythonSupport 2 1 bootState =
      .err (.logicError "Multiple assignments of SimpleTypeDefinition to PythonSTSupport")
        { bootState with
          defs := bootState.defs.set 2 (.simple { c4OldStd with pythonSupport := some 1 }) } :=
  C9_amended_rebinding_same_codec_raises bootState 2 1 c4OldStd
    { simpleTypeDefinition := some 2 } 2 (by rfl) (by rfl) (by rfl)

set_option maxHeartbeats 4000000 in
/-- C6 counterexample: the claim says a simple type definition whose node
has none of the three child forms nevertheless resolves (isResolved
becomes true, as a restriction of the ur-type); but for the concrete
`Bare` type (reference 3) the whole pipeline completes without error and
the definition is still unresolved afterwards — no variety was ever set. -/
theorem C6_counterexample_formless_type_stays_unresolved :
    c6Run initialState = .ok 3 c6Final ∧
    (defAt c6Final 3).map TypeDef.isResolved = some false ∧
    (stdAt c6Final 3).map (fun std => (std.variety, std.baseTypeDefinition)) =
      some (none, none) := by
  refine ⟨?_, ?_, ?_⟩ <;>
    simp [c6Run, c6Final, finalStateOf, c6State, bootstrap, initialState,
      ComplexTypeDefinition.UrTypeDefinition, SimpleTypeDefinition.SimpleUrTypeDefinition,
      SimpleTypeDefinition.CreatePrimitiveInstance, SimpleTypeDefinition.setPythonSupport,
      PSTSObj.setSimpleTypeDefinition, newPSTS, allocDef, getDef, getSTD, getCTD, getPSTS,
      modifySTD, modifyCTD, modifyPSTS, Schema.addTypeDefinition, Schema.addUnresolvedTypeDefinition,
      Schema.getTargetNamespace, Schema.lookupType, Schema.lookupSimpleType, Schema.lookupTypeDefinition,
      dictGet, dictSet, SimpleTypeDefinition.CreateFromDOM, Schema.resolveTypeDefinitions,
      Schema.resolveTypeDefinitionsLoop, Schema.resolvePass, Schema.resolveOne,
      SimpleTypeDefinition.resolve, LocateUniqueChild, locateUniqueChildLoop,
      bind_def, M.bind, pure_def, M.pure, M.get, M.set, M.modify, M.throw,
      DomNode.nodeName, DomNode.childNodes, DomNode.hasAttribute, DomNode.getAttribute,
      DomNode.findAttr, DomNode.isElement, xsQualifiedName, bareNode, Particle.init,
      TypeDef.isResolved, TypeDef.localName, TypeDef.isComplex, TypeDef.nameQ,
      TypeDef.targetNamespace, namesOf, List.lookup, defAt, stdAt, DM_empty, DM_extension, DM_restriction, CT_EMPTY, CT_SIMPLE, CT_MIXED,
      CT_ELEMENT_ONLY, VARIETY_absent, VARIETY_atomic, VARIETY_list, VARIETY_union,
      C_SEQUENCE, C_ALL, C_CHOICE, NC_any, PC_skip, PC_lax, PC_strict]

/-- C6 (amended): for every simple type definition whose document node
contains none of the three child forms (list, restriction, union),
`_resolve` raises no error but also does not resolve the type: it returns
with the entire state unchanged — the definition keeps variety unset
(isResolved stays false), no field is modified, and it is not re-queued. -/
theorem C6_amended_no_forms_is_silent_nonresolution
    (s : State) (i : Nat) (std : SimpleTypeDefinition) (node : DomNode)
    (hget : s.defs.get? i = some (.simple std))
    (hunres : std.variety = none)
    (hdom : std.domNode = some node)
    (hw3c : std.hasW3cXMLSchema = true)
    (hchild : ∀ c ∈ node.childNodes,
      c.nodeName ≠ "list" ∧ c.nodeName ≠ "restriction" ∧ c.nodeName ≠ "union") :
    SimpleTypeDefinition.resolve i s = .ok () s := by
  rw [List.get?_eq_getElem?] at hget
  have hlist := LocateUniqueChild_none node "list" s (fun c hc => ((hchild c hc).1))
  have hrestriction := LocateUniqueChild_none node "restriction" s (fun c hc => ((hchild c hc).2.1))
  have hunion := LocateUniqueChild_none node "union" s (fun c hc => ((hchild c hc).2.2))
  simp [SimpleTypeDefinition.resolve, getSTD, bind_def, M.bind, pure_def, M.pure,
        hget, hunres, hdom, hw3c, hlist, hrestriction, hunion]

/-- C6 witness: the unresolved `Bare` definition (reference 3) in its
registered state; resolving leaves the state untouched. -/
theorem C6_witness : SimpleTypeDefinition.resolve 3 c6State = .ok () c6State :=
  C6_amended_no_forms_is_silent_nonresolution c6State 3 c6BareStd bareNode
    (by rfl) (by rfl) (by rfl) (by rfl)
    (by intro c hc; simp [bareNode, DomNode.childNodes] at hc; subst hc; simp [DomNode.nodeName])

set_option maxHeartbeats 4000000 in
/-- C1: the claim (and the source comments, the `CreatePrimitiveInstance`
convention `string.primitiveType == string`, and the field documentation
"the root (excepting ur-type) type") say the primitive type is the last
atomic node on the baseType walk, so `Grade` restricting `string` should
get `string` (reference 2).  The source loop instead walks until the node
is no longer atomic and assigns that node: `Grade` (reference 3) ends up
with `primitiveTypeDefinition` = `anySimpleType` (reference 1), the
non-atomic simple ur-type — evidence of the off-by-one code bug.  Variety
and base type agree with the claim. -/
theorem C1_grade_primitive_is_ur_type_not_string :
    c1Run initialState = .ok 3 c1Final ∧
    (stdAt c1Final 3).map
        (fun std => (std.variety, std.baseTypeDefinition, std.primitiveTypeDefinition))
      = some (some VARIETY_atomic, some 2, some 1) ∧
    (stdAt c1Final 2).map (fun std => (std.name, std.variety, std.primitiveTypeDefinition))
      = some (some "string", some VARIETY_atomic, some 2) ∧
    (stdAt c1Final 1).map (fun std => (std.name, std.variety))
      = some (some "anySimpleType", some VARIETY_absent) ∧
    (1 : Nat) ≠ 2 := by
  refine ⟨?_, ?_, ?_, ?_, by decide⟩ <;>
    simp [c1Run, c1Final, finalStateOf, bootstrap, initialState, gradeNode,
      ComplexTypeDefinition.UrTypeDefinition, SimpleTypeDefinition.SimpleUrTypeDefinition,
      SimpleTypeDefinition.CreatePrimitiveInstance, SimpleTypeDefinition.setPythonSupport,
      PSTSObj.setSimpleTypeDefinition, newPSTS, allocDef, getDef, getSTD, getCTD, getPSTS,
      modifySTD, modifyCTD, modifyPSTS, Schema.addTypeDefinition, Schema.addUnresolvedTypeDefinition,
      Schema.getTargetNamespace, Schema.lookupType, Schema.lookupSimpleType, Schema.lookupTypeDefinition,
      dictGet, dictSet, SimpleTypeDefinition.CreateFromDOM, Schema.resolveTypeDefinitions,
      Schema.resolveTypeDefinitionsLoop, Schema.resolvePass, Schema.resolveOne,
      SimpleTypeDefinition.resolve, SimpleTypeDefinition.initializeFromList,
      SimpleTypeDefinition.initializeFromRestriction, SimpleTypeDefinition.initializeFromUnion,
      SimpleTypeDefinition.completeResolution, primitiveWalk, collectUnionMembers,
      SimpleTypeDefinition.singleSimpleTypeChild, singleSimpleTypeChildLoop,
      LocateUniqueChild, locateUniqueChildLoop,
      bind_def, M.bind, pure_def, M.pure, M.get, M.set, M.modify, M.throw,
      DomNode.nodeName, DomNode.childNodes, DomNode.hasAttribute, DomNode.getAttribute,
      DomNode.findAttr, DomNode.isElement, xsQualifiedName, Particle.init,
      TypeDef.isResolved, TypeDef.localName, TypeDef.isComplex, TypeDef.nameQ,
      TypeDef.targetNamespace, namesOf, List.lookup, defAt, stdAt, DM_empty, DM_extension, DM_restriction, CT_EMPTY, CT_SIMPLE, CT_MIXED,
      CT_ELEMENT_ONLY, VARIETY_absent, VARIETY_atomic, VARIETY_list, VARIETY_union,
      C_SEQUENCE, C_ALL, C_CHOICE, NC_any, PC_skip, PC_lax, PC_strict]

set_option maxHeartbeats 4000000 in
/-- C2: the claim says a `complexType` named `Empty` with no children
resolves with derivationMethod restriction, baseType the ur-type and
contentType empty, and that after `_resolve` the instance is Resolved.
The source instead raises a structural error from
`LocateFirstChildElement` (called with absent-ok false) on the childless
node, and its content-completion methods are stubs that set nothing: the
definition (reference 3) is left with every completion field unset and
`isResolved()` false — evidence that the code contradicts the claimed
(and commented) contract. -/
theorem C2_empty_complexType_raises_structural_error :
    c2Run initialState =
      .err (.schemaValidationError "No elements nested in complexType") c2Final ∧
    (ctdAt c2Final 3).map
        (fun c => (c.derivationMethod, c.contentType, c.attributeUses, c.attributeWildcard))
      = some (none, none, none, none) ∧
    (defAt c2Final 3).map TypeDef.isResolved = some false := by
  refine ⟨?_, ?_, ?_⟩ <;>
    simp [c2Run, c2Final, finalStateOf, bootstrap, initialState, emptyComplexNode,
      ComplexTypeDefinition.UrTypeDefinition, SimpleTypeDefinition.SimpleUrTypeDefinition,
      SimpleTypeDefinition.CreatePrimitiveInstance, SimpleTypeDefinition.setPythonSupport,
      PSTSObj.setSimpleTypeDefinition, newPSTS, allocDef, getDef, getSTD, getCTD, getPSTS,
      modifySTD, modifyCTD, modifyPSTS, Schema.addTypeDefinition, Schema.addUnresolvedTypeDefinition,
      Schema.getTargetNamespace, Schema.lookupType, Schema.lookupSimpleType, Schema.lookupTypeDefinition,
      dictGet, dictSet, ComplexTypeDefinition.CreateFromDOM, Schema.resolveTypeDefinitions,
      Schema.resolveTypeDefinitionsLoop, Schema.resolvePass, Schema.resolveOne,
      ComplexTypeDefinition.resolve, ComplexTypeDefinition.completeComplexResolution,
      ComplexTypeDefinition.completeSimpleResolution, booleanStringToPython,
      LocateFirstChildElement, locateFirstChildElementLoop,
      bind_def, M.bind, pure_def, M.pure, M.get, M.set, M.modify, M.throw,
      DomNode.nodeName, DomNode.childNodes, DomNode.hasAttribute, DomNode.getAttribute,
      DomNode.findAttr, DomNode.isElement, xsQualifiedName, Particle.init,
      TypeDef.isResolved, TypeDef.localName, TypeDef.isComplex, TypeDef.nameQ,
      TypeDef.targetNamespace, namesOf, List.lookup, defAt, ctdAt, DM_empty, DM_extension, DM_restriction, CT_EMPTY, CT_SIMPLE, CT_MIXED,
      CT_ELEMENT_ONLY, VARIETY_absent, VARIETY_atomic, VARIETY_list, VARIETY_union,
      C_SEQUENCE, C_ALL, C_CHOICE, NC_any, PC_skip, PC_lax, PC_strict]

/-- C3: the fixpoint driver raises rather than loops.  Part one (for every
state): whenever a full pass over a non-empty queue snapshot leaves the
unresolved queue identical to the snapshot, the driver loop raises the
unresolvable-reference `LogicError` naming the stuck components — for any
remaining fuel, i.e. the outcome does not depend on how many further
passes would have been allowed.  Part two (the claimed example): for the
cyclic restriction pair `A`/`B` (neither built-in), the driver raises that
error naming both `A` and `B`, again for every fuel bound, so granting
more fuel never turns the error into an infinite loop. -/
theorem C3_driver_raises_on_no_progress :
    (∀ (s s2 : State) (u : Nat) (us : List Nat) (names : List String) (fuel : Nat),
      s.schema.unresolvedTypeDefinitions = some (u :: us) →
      Schema.resolvePass (u :: us)
        { s with schema := { s.schema with unresolvedTypeDefinitions := some [] } } = .ok () s2 →
      s2.schema.unresolvedTypeDefinitions = some (u :: us) →
      namesOf (u :: us) s2 = .ok names s2 →
      Schema.resolveTypeDefinitionsLoop (fuel + 1) s =
        .err (.logicError ("Infinite loop resolving types: " ++ String.intercalate " " names)) s2) ∧
    (∀ fuel : Nat,
      Schema.resolveTypeDefinitions (fuel + 1) c3State =
        .err (.logicError "Infinite loop resolving types: xs:A xs:B") c3PassState) := by
  constructor
  · intro s s2 u us names fuel hq hpass hq2 hnames
    simp [Schema.resolveTypeDefinitionsLoop, bind_def, M.bind, M.get, M.set, M.throw,
          pure_def, M.pure, hq, hpass, hq2, hnames]
  · intro fuel
    simp [Schema.resolveTypeDefinitions, Schema.resolveTypeDefinitionsLoop, c3State, c3PassState,
      cycleNodeA, cycleNodeB, String.intercalate, List.intercalate, List.intersperse,
      ComplexTypeDefinition.UrTypeDefinition, SimpleTypeDefinition.SimpleUrTypeDefinition,
      SimpleTypeDefinition.CreatePrimitiveInstance, SimpleTypeDefinition.setPythonSupport,
      PSTSObj.setSimpleTypeDefinition, newPSTS, allocDef, getDef, getSTD, getCTD, getPSTS,
      modifySTD, modifyCTD, modifyPSTS, Schema.addTypeDefinition, Schema.addUnresolvedTypeDefinition,
      Schema.getTargetNamespace, Schema.lookupType, Schema.lookupSimpleType, Schema.lookupTypeDefinition,
      dictGet, dictSet, SimpleTypeDefinition.CreateFromDOM, ComplexTypeDefinition.CreateFromDOM,
      Schema.resolvePass, Schema.resolveOne, SimpleTypeDefinition.resolve,
      SimpleTypeDefinition.initializeFromList, SimpleTypeDefinition.initializeFromRestriction,
      SimpleTypeDefinition.initializeFromUnion, SimpleTypeDefinition.completeResolution,
      primitiveWalk, collectUnionMembers, SimpleTypeDefinition.singleSimpleTypeChild,
      singleSimpleTypeChildLoop, LocateUniqueChild, locateUniqueChildLoop,
      bind_def, M.bind, pure_def, M.pure, M.get, M.set, M.modify, M.throw,
      DomNode.nodeName, DomNode.childNodes, DomNode.hasAttribute, DomNode.getAttribute,
      DomNode.findAttr, DomNode.isElement, xsQualifiedName, XNamespace.qualifiedName, Particle.init,
      TypeDef.isResolved, TypeDef.localName, TypeDef.isComplex, TypeDef.nameQ,
      TypeDef.targetNamespace, namesOf, List.lookup, DM_empty, DM_extension, DM_restriction,
      CT_EMPTY, CT_SIMPLE, CT_MIXED, CT_ELEMENT_ONLY, VARIETY_absent, VARIETY_atomic,
      VARIETY_list, VARIETY_union, C_SEQUENCE, C_ALL, C_CHOICE, NC_any, PC_skip, PC_lax, PC_strict]
    rfl

/-- C3 witness: one loop iteration from the cyclic-pair state raises the
error naming `A` and `B`, by the general no-progress part of C3 applied
at the concrete snapshot `[3, 4]`. -/
theorem C3_witness :
    Schema.resolveTypeDefinitionsLoop 1 c3State =
      .err (.logicError ("Infinite loop resolving types: " ++
        String.intercalate " " ["xs:A", "xs:B"])) c3PassState :=
  C3_driver_raises_on_no_progress.1 c3State c3PassState 3 [4] ["xs:A", "xs:B"] 0
    (by rfl) c3_pass_reaches_c3PassState (by rfl) (by rfl)

set_option maxHeartbeats 8000000 in
/-- C5: forward references defer rather than fail, and resolve once the
driver completes.  Part one (for every state): when the restriction body
names a base that is registered but not yet resolved,
`__initializeFromRestriction` re-queues the definition and returns without
raising, changing nothing but the queue (no field of any definition is
touched).  Part two (the claimed example): `ForwardA`, which restricts the
later-declared `LaterB`, ends up fully resolved after `ResolveAll` —
variety atomic and base type `LaterB` (reference 4), which itself resolved
against the built-in `string` (reference 2). -/
theorem C5_forward_reference_defers_then_resolves :
    (∀ (s : State) (i : Nat) (body : DomNode) (b : Nat) (bd : TypeDef) (q : List Nat),
      body.hasAttribute "base" = true →
      dictGet s.schema.typeDefinitions (body.getAttribute "base") = some b →
      s.defs.get? b = some bd →
      bd.isResolved = false →
      s.schema.unresolvedTypeDefinitions = some q →
      SimpleTypeDefinition.initializeFromRestriction i body s =
        .ok () { s with schema :=
          { s.schema with unresolvedTypeDefinitions := some (q ++ [i]) } }) ∧
    (c5Run initialState = .ok 3 c5Final ∧
      (stdAt c5Final 3).map (fun std => (std.variety, std.baseTypeDefinition)) =
        some (some VARIETY_atomic, some 4) ∧
      (stdAt c5Final 4).map (fun std => (std.variety, std.baseTypeDefinition)) =
        some (some VARIETY_atomic, some 2) ∧
      (defAt c5Final 3).map TypeDef.isResolved = some true) := by
  constructor
  · intro s i body b bd q hattr hdict hdef hres hq
    rw [List.get?_eq_getElem?] at hdef
    simp [SimpleTypeDefinition.initializeFromRestriction, Schema.lookupSimpleType,
          Schema.lookupType, getDef, Schema.addUnresolvedTypeDefinition,
          bind_def, M.bind, M.get, M.set, M.throw, pure_def, M.pure,
          hattr, hdict, hdef, hres, hq]
  · refine ⟨?_, ?_, ?_, ?_⟩ <;>
      simp [c5Run, c5Final, forwardNodeA, laterNodeB, bootstrap, initialState, stdAt, defAt,
        ComplexTypeDefinition.UrTypeDefinition, SimpleTypeDefinition.SimpleUrTypeDefinition,
        SimpleTypeDefinition.CreatePrimitiveInstance, SimpleTypeDefinition.setPythonSupport,
        PSTSObj.setSimpleTypeDefinition, newPSTS, allocDef, getDef, getSTD, getCTD, getPSTS,
        modifySTD, modifyCTD, modifyPSTS, Schema.addTypeDefinition, Schema.addUnresolvedTypeDefinition,
        Schema.getTargetNamespace, Schema.lookupType, Schema.lookupSimpleType, Schema.lookupTypeDefinition,
        dictGet, dictSet, SimpleTypeDefinition.CreateFromDOM, ComplexTypeDefinition.CreateFromDOM,
        Schema.resolveTypeDefinitions, Schema.resolveTypeDefinitionsLoop, Schema.resolvePass,
        Schema.resolveOne, SimpleTypeDefinition.resolve, SimpleTypeDefinition.initializeFromList,
        SimpleTypeDefinition.initializeFromRestriction, SimpleTypeDefinition.initializeFromUnion,
        SimpleTypeDefinition.completeResolution, primitiveWalk, collectUnionMembers,
        SimpleTypeDefinition.singleSimpleTypeChild, singleSimpleTypeChildLoop,
        LocateUniqueChild, locateUniqueChildLoop,
        bind_def, M.bind, pure_def, M.pure, M.get, M.set, M.modify, M.throw,
        DomNode.nodeName, DomNode.childNodes, DomNode.hasAttribute, DomNode.getAttribute,
        DomNode.findAttr, DomNode.isElement, xsQualifiedName, XNamespace.qualifiedName, Particle.init,
        TypeDef.isResolved, TypeDef.localName, TypeDef.isComplex, TypeDef.nameQ,
        TypeDef.targetNamespace, namesOf, List.lookup, DM_empty, DM_extension, DM_restriction,
        CT_EMPTY, CT_SIMPLE, CT_MIXED, CT_ELEMENT_ONLY, VARIETY_absent, VARIETY_atomic,
        VARIETY_list, VARIETY_union, C_SEQUENCE, C_ALL, C_CHOICE, NC_any, PC_skip, PC_lax, PC_strict]

/-- C5 witness: `ForwardA` (reference 3) resolving its restriction body
against the registered-but-unresolved `LaterB` (reference 4) in the
pre-driver state defers: the queue `[3, 4]` becomes `[3, 4, 3]` and
nothing else changes. -/
theorem C5_witness :
    SimpleTypeDefinition.initializeFromRestriction 3 c5RestrictionBody c5State =
      .ok () { c5State with schema :=
        { c5State.schema with unresolvedTypeDefinitions := some ([3, 4] ++ [3]) } } :=
  C5_forward_reference_defers_then_resolves.1 c5State 3 c5RestrictionBody 4
    (.simple { name := some "LaterB", targetNamespace := some "xs", variety := none,
               domNode := some laterNodeB, hasW3cXMLSchema := true }) [3, 4]
    (by rfl) (by rfl) (by rfl) (by rfl) (by rfl)

/-- Setting the freshly appended last element of a list rewrites the
appended singleton in place. -/
theorem set_concat_length {α : Type} (l : List α) (a b : α) :
    (l ++ [a]).set l.length b = l ++ [b] := by
  induction l with
  | nil => rfl
  | cons x xs ih => simp [List.set, ih]

/-- C8: the complex ur-type factory.  Part one (first call, from any state
with an empty cache): a single instance is allocated at the next arena
reference, the cache is set to it, and the instance is its own
`baseTypeDefinition`, with derivation by restriction, an any/lax attribute
wildcard, no attribute uses, and mixed content whose model is a single
any/lax-wildcard particle with minOccurs 0 and unbounded (None) maxOccurs.
Part two (every later call): with the cache set, calling without a
namespace returns the cached reference with the state completely
unchanged — no second instance is ever constructed. -/
theorem C8_ur_type_singleton :
    (∀ (s : State) (ns : XNamespace),
      s.urTypeDefinition = none →
      ComplexTypeDefinition.UrTypeDefinition (some ns) s =
        .ok s.defs.length
          { s with
            defs := s.defs ++ [.complex
              { name := some "anyType", targetNamespace := some ns,
                derivationMethod := some DM_restriction,
                baseTypeDefinition := some s.defs.length,
                finalDM := DM_empty, abstract := false,
                attributeUses := some [],
                attributeWildcard := some ⟨NC_any, PC_lax⟩,
                contentType := some (.pairModel
                  ⟨C_SEQUENCE, [⟨PTerm.wildcard ⟨NC_any, PC_lax⟩, 0, none⟩]⟩ CT_MIXED),
                prohibitedSubstitutions := DM_empty, domNode := none,
                hasW3cXMLSchema := false }],
            urTypeDefinition := some s.defs.length }) ∧
    (∀ (s : State) (i : Nat),
      s.urTypeDefinition = some i →
      ComplexTypeDefinition.UrTypeDefinition none s = .ok i s) := by
  constructor
  · intro s ns hcache
    have h1 : ∀ x : TypeDef, (s.defs ++ [x])[s.defs.length]? = some x := by
      intro x; exact List.getElem?_concat_length s.defs x
    have h2 : ∀ x y : TypeDef, (s.defs ++ [x]).set s.defs.length y = s.defs ++ [y] :=
      fun x y => set_concat_length s.defs x y
    simp [ComplexTypeDefinition.UrTypeDefinition, allocDef, getCTD, modifyCTD,
          Particle.init, bind_def, M.bind, M.get, M.set, M.modify, M.throw,
          pure_def, M.pure, hcache, h1, h2]
  · intro s i hcache
    simp [ComplexTypeDefinition.UrTypeDefinition, bind_def, M.bind, M.get,
          pure_def, M.pure, hcache]

/-- C8 witness: in the bootstrap state the cached singleton (reference 0)
is returned unchanged; and the first call on the pristine initial state
constructs it (reference 0 = the length of the empty arena). -/
theorem C8_witness :
    ComplexTypeDefinition.UrTypeDefinition none bootState = .ok 0 bootState ∧
    ∃ s', ComplexTypeDefinition.UrTypeDefinition (some "xs") initialState = .ok 0 s' :=
  ⟨C8_ur_type_singleton.2 bootState 0 (by rfl),
   ⟨_, C8_ur_type_singleton.1 initialState "xs" (by rfl)⟩⟩

/-- C4: the built-in/schema-defined merge.  For every registration of a
schema-defined definition (`newRef`) whose local name is already held by a
registered definition (`oldRef`, the built-in) of the same kind, the
registry keeps mapping the name to the same `oldRef` object (so subsequent
lookups return the built-in, and its codec binding — part of the untouched
fields, and the untouched codec arena — is kept), the built-in absorbs the
pending document node and schema reference of the new definition and becomes
unresolved for re-resolution, the built-in replaces the new definition on
the unresolved queue, and the new definition is discarded in favour of the
returned `oldRef`. -/
theorem C4_builtin_absorbs_schema_definition
    (s : State) (newRef oldRef : Nat) (newStd oldStd : SimpleTypeDefinition)
    (n : String) (q : List Nat) (nd : DomNode)
    (hnew : s.defs.get? newRef = some (.simple newStd))
    (hold : s.defs.get? oldRef = some (.simple oldStd))
    (hname : newStd.name = some n)
    (hncolon : n.data.contains ':' = false)
    (hreg : dictGet s.schema.typeDefinitions n = some oldRef)
    (hq : s.schema.unresolvedTypeDefinitions = some q)
    (hmem : newRef ∈ q)
    (hnomem : oldRef ∉ q.erase newRef)
    (hsamename : oldStd.name = newStd.name)
    (hsametns : oldStd.targetNamespace = newStd.targetNamespace)
    (hnobase : newStd.baseTypeDefinition = none)
    (hdom : newStd.domNode = some nd)
    (hw3c : newStd.hasW3cXMLSchema = true)
    (hne : oldRef ≠ newRef) :
    ∃ s', Schema.addTypeDefinition newRef s = .ok oldRef s' ∧
      s'.schema.typeDefinitions = s.schema.typeDefinitions ∧
      dictGet s'.schema.typeDefinitions n = some oldRef ∧
      s'.schema.unresolvedTypeDefinitions = some (q.erase newRef ++ [oldRef]) ∧
      s'.defs.get? oldRef = some (.simple
        { oldStd with domNode := some nd, hasW3cXMLSchema := true, variety := none }) ∧
      (TypeDef.simple
        { oldStd with domNode := some nd, hasW3cXMLSchema := true, variety := none }).isResolved
        = false ∧
      s'.psts = s.psts := by
  rw [List.get?_eq_getElem?] at hnew hold
  have hlt : oldRef < s.defs.length := by
    rcases List.getElem?_eq_some.mp hold with ⟨hlt, -⟩
    exact hlt
  have hget1 : ∀ x : TypeDef, (s.defs.set oldRef x)[oldRef]? = some x := by
    intro x
    exact List.getElem?_set_eq_of_lt x hlt
  have hget2 : ∀ x : TypeDef, (s.defs.set oldRef x)[newRef]? = s.defs[newRef]? := by
    intro x
    exact List.getElem?_set_ne hne
  have hncolonMem : ':' ∉ n.data := by simpa using hncolon
  refine ⟨{ s with
      defs := s.defs.set oldRef (.simple
        { oldStd with domNode := some nd, hasW3cXMLSchema := true, variety := none }),
      schema := { s.schema with
        unresolvedTypeDefinitions := some (q.erase newRef ++ [oldRef]) } },
    ?_, by simp, by simp [hreg], by simp, by simp [hget1], by simp [TypeDef.isResolved], by simp⟩
  simp [Schema.addTypeDefinition, getDef, getSTD, TypeDef.setFromInstance,
        SimpleTypeDefinition.setFromInstance, modifySTD,
        bind_def, M.bind, M.get, M.set, M.modify, M.throw, pure_def, M.pure,
        hnew, hold, hname, hncolon, hncolonMem, hreg, hq, hmem, hnomem, hsamename, hsametns,
        hnobase, hdom, hw3c, hget1, hget2, List.set_set,
        TypeDef.localName, TypeDef.isComplex, TypeDef.nameQ]

/-- C4 witness: registering the schema redefinition of `string` (reference
3) in the pre-registration state hands back the built-in `string`
(reference 2): the registry still maps `string` to 2, the queue `[3]`
becomes `[2]`, and the built-in — still carrying its codec binding — is
unresolved with the absorbed document node. -/
theorem C4_witness :
    ∃ s', Schema.addTypeDefinition 3 c4Pre = .ok 2 s' ∧
      s'.schema.typeDefinitions = c4Pre.schema.typeDefinitions ∧
      dictGet s'.schema.typeDefinitions "string" = some 2 ∧
      s'.schema.unresolvedTypeDefinitions = some ([3].erase 3 ++ [2]) ∧
      s'.defs.get? 2 = some (.simple
        { c4OldStd with domNode := some stringRedefNode, hasW3cXMLSchema := true, variety := none }) ∧
      (TypeDef.simple
        { c4OldStd with domNode := some stringRedefNode, hasW3cXMLSchema := true, variety := none }).isResolved = false ∧
      s'.psts = c4Pre.psts :=
  C4_builtin_absorbs_schema_definition c4Pre 3 2 c4NewStd c4OldStd "string" [3] stringRedefNode
    (by rfl) (by rfl) (by rfl) (by rfl) (by rfl) (by rfl) (by decide) (by decide)
    (by rfl) (by rfl) (by rfl) (by rfl) (by rfl) (by decide)
